import Mathlib

/-!
# Verification of `src/streamlit_app.py`

A shallow embedding of the Streamlit document Q&A app.  External effects
(the generative-model SDK, UTF-8 decoding, PDF text extraction, JSON
parsing, and the spreadsheet client) are modelled as oracle functions that
either return a value or raise (an `Except String` result).  A run of a
piece of code is modelled as the final session state, the chronological
list of observable events (UI displays and external calls), and an
optional uncaught exception.

Python truthiness is embedded explicitly where the source relies on it:
a string is truthy iff non-empty, `None` is falsy, and a dict (here the
loaded credentials, modelled as an association list) is truthy iff
non-empty.

A chat turn in the source is the dict `{"role": r, "parts": [t]}`; the
`parts` list is always a singleton in this program, so a turn is embedded
as a `role`/`text` pair.
-/

set_option autoImplicit false

/-- The parsed service-account credentials: a JSON object, modelled as an
association list of string keys and values. -/
abbrev Creds := List (String × String)

/-- One chat turn: the dict `{"role": role, "parts": [text]}`. -/
structure ChatTurn where
  role : String
  text : String
deriving Repr, DecidableEq

/-- A Streamlit `UploadedFile`: its `.name`, its MIME `.type`, and the
bytes returned by `.getvalue()`. -/
structure UploadedFile where
  name : String
  type : String
  bytes : List Nat
deriving Repr, DecidableEq

/-- The oracles standing for every external operation the app performs.
Each one may raise, modelled as `Except String`. -/
structure Oracles where
  /-- `bytes.decode("utf-8")` (line 15). -/
  decode_utf8 : List Nat → Except String String
  /-- `PyPDF2.PdfReader(...)` plus `.extract_text()` of each page in page
  order (lines 17-20). -/
  pdf_page_texts : List Nat → Except String (List String)
  /-- `json.load(credentials_file)` (line 60). -/
  json_load : List Nat → Except String Creds
  /-- `get_gemini_model`: `genai.configure(api_key)` and
  `GenerativeModel(...)` (lines 8-10). -/
  get_model : String → Except String Unit
  /-- `model.generate_content(prompt)`, returning `response.text`. -/
  generate_content : String → Except String String
  /-- `model.start_chat(history=...)` (line 116). -/
  start_chat : List ChatTurn → Except String Unit
  /-- `chat.send_message(msg)` on a chat started with the given history,
  returning `response.text` (line 119). -/
  send_message : List ChatTurn → String → Except String String
  /-- `gspread.service_account_from_dict(credentials_json)` (line 27). -/
  service_account_from_dict : Creds → Except String Unit
  /-- `gc.open(sheet_name)` (line 28). -/
  open_sheet : String → Except String Unit
  /-- `sh.worksheet(worksheet_name)` (line 29). -/
  worksheet : String → Except String Unit
  /-- `worksheet.append_row(data)` on the named sheet and worksheet
  (line 30). -/
  append_row : String → String → List String → Except String Unit

/-- An observable event: a Streamlit display call or an external call. -/
inductive Ev where
  | title (s : String)
  | subheader (s : String)
  | success (s : String)
  | warning (s : String)
  | info (s : String)
  | errorMsg (s : String)
  | write (s : String)
  /-- `st.chat_message(role)` + `st.markdown(text)` (lines 128-129). -/
  | chatMarkdown (role text : String)
  /-- the `json.load` call on the uploaded credentials file (line 60). -/
  | jsonLoadCall
  /-- a `get_gemini_model` call (configure + model construction). -/
  | configureModel (api_key : String)
  /-- a `model.generate_content` call with the full prompt. -/
  | generateContent (prompt : String)
  /-- a `model.start_chat(history=...)` call. -/
  | startChatCall (history : List ChatTurn)
  /-- a `chat.send_message` call. -/
  | sendMessage (history : List ChatTurn) (msg : String)
  /-- `gspread.service_account_from_dict` (line 27). -/
  | sheetClient
  /-- `gc.open(sheet_name)` (line 28). -/
  | sheetOpen (sheet_name : String)
  /-- `sh.worksheet(worksheet_name)` (line 29). -/
  | sheetWorksheet (ws_name : String)
  /-- `worksheet.append_row(data)` (line 30). -/
  | sheetAppend (sheet_name ws_name : String) (row : List String)
deriving Repr, DecidableEq

/-- `pat in s` on Python strings: substring containment. -/
def strContains (s pat : String) : Bool :=
  decide (pat.data <:+: s.data)

/-- Embedding of `get_file_content` (lines 12-23).  Branches on the MIME
type exactly as the source: the `text`/`markdown` test first, then the
`pdf` test, else the sentinel.  The PDF branch concatenates the extracted
text of every page in page order starting from the empty string. -/
def get_file_content (o : Oracles) (uploaded_file : UploadedFile) : Except String String :=
  let file_type := uploaded_file.type
  if strContains file_type "text" || strContains file_type "markdown" then
    o.decode_utf8 uploaded_file.bytes
  else if strContains file_type "pdf" then
    match o.pdf_page_texts uploaded_file.bytes with
    | .error e => .error e
    | .ok pages => .ok (pages.foldl (fun text page => text ++ page) "")
  else
    .ok "Unsupported file type."

/-- The `try` body of `save_to_google_sheet` (lines 27-31, before the
`st.success` display): the four external steps in order, stopping at the
first that raises.  Returns the events of the calls made and the body
outcome. -/
def save_body (o : Oracles) (data : List String) (sheet_name worksheet_name : String)
    (credentials_json : Creds) : List Ev × Except String Unit :=
  match o.service_account_from_dict credentials_json with
  | .error e => ([.sheetClient], .error e)
  | .ok _ =>
    match o.open_sheet sheet_name with
    | .error e => ([.sheetClient, .sheetOpen sheet_name], .error e)
    | .ok _ =>
      match o.worksheet worksheet_name with
      | .error e => ([.sheetClient, .sheetOpen sheet_name, .sheetWorksheet worksheet_name], .error e)
      | .ok _ =>
        match o.append_row sheet_name worksheet_name data with
        | .error e =>
            ([.sheetClient, .sheetOpen sheet_name, .sheetWorksheet worksheet_name,
              .sheetAppend sheet_name worksheet_name data], .error e)
        | .ok _ =>
            ([.sheetClient, .sheetOpen sheet_name, .sheetWorksheet worksheet_name,
              .sheetAppend sheet_name worksheet_name data], .ok ())

/-- Embedding of `save_to_google_sheet` (lines 25-33).  On success of the
body it displays the success message; on any exception it displays the
error message.  (The Python format string wraps the sheet and worksheet
names in single quotation marks; the quotation marks are omitted here.)
The second component is what propagates to the caller: always `ok`. -/
def save_to_google_sheet (o : Oracles) (data : List String)
    (sheet_name worksheet_name : String) (credentials_json : Creds) :
    List Ev × Except String Unit :=
  match save_body o data sheet_name worksheet_name credentials_json with
  | (evs, .ok _) =>
      (evs ++ [.success ("Data saved to Google Sheet " ++ sheet_name ++
        " (worksheet " ++ worksheet_name ++ ")")], .ok ())
  | (evs, .error e) =>
      (evs ++ [.errorMsg ("Error saving to Google Sheet: " ++ e)], .ok ())

/-- The Streamlit session state after the initialisation at lines 38-45
(those lines only insert defaults for missing keys, so every field is
present from here on). -/
structure SessionState where
  gemini_api_key : String
  chat_history : List ChatTurn
  document_content : String
  google_sheet_credentials : Option Creds
deriving Repr, DecidableEq

/-- The widget values read during one run of `main`: the API-key text
input (line 48), the uploaded credentials file bytes (line 58), the three
sidebar text inputs (lines 65-67), the uploaded document (line 70), the
two buttons (lines 89 and 101), and the question text input (line 112). -/
structure Inputs where
  gemini_api_key : String
  credentials_file : Option (List Nat)
  google_sheet_name : String
  analysis_worksheet_name : String
  questions_worksheet_name : String
  uploaded_file : Option UploadedFile
  analysis_clicked : Bool
  quiz_clicked : Bool
  user_question : String
deriving Repr, DecidableEq

/-- The outcome of running a piece of the handler: the session state when
it ends (or when an uncaught exception escapes), the events so far, and
the uncaught exception if one escaped. -/
structure RunResult where
  state : SessionState
  events : List Ev
  uncaught : Option String
deriving Repr, DecidableEq

/-- Sequencing of handler pieces: if an uncaught exception has already
escaped, the rest of the handler does not run. -/
def seqRun (r : RunResult) (f : SessionState → RunResult) : RunResult :=
  match r.uncaught with
  | some _ => r
  | none =>
    let r2 := f r.state
    ⟨r2.state, r.events ++ r2.events, r2.uncaught⟩

/-- Python truthiness of the stored credentials: `None` is falsy, a dict
is truthy iff non-empty. -/
def credsTruthy : Option Creds → Bool
  | none => false
  | some c => !c.isEmpty

/-- The summarization prompt (line 78). -/
def summarizePrompt (content : String) : String :=
  "Summarize the following document:\n\n" ++ content

/-- The statistical-analysis prompt (line 93). -/
def analysisPrompt (content : String) : String :=
  "Based on the following document content, propose relevant statistical analysis methods and why they are suitable:\n\n" ++ content

/-- The quiz prompt (line 105). -/
def quizPrompt (content : String) : String :=
  "Generate a multiple-choice quiz with answers based on the following document content:\n\n" ++ content

/-- The chat message sent for a user question (line 119). -/
def chatMessage (content question : String) : String :=
  "Document content: " ++ content ++ "\n\nUser question: " ++ question

/-- The turn appended for the user (line 120). -/
def chatTurnUser (question : String) : ChatTurn := ⟨"user", question⟩

/-- The turn appended for the model (line 121). -/
def chatTurnModel (text : String) : ChatTurn := ⟨"model", text⟩

/-- The message of the `AttributeError` raised by `uploaded_file.name`
when no file is uploaded (`uploaded_file` is `None`) at lines 97 and 123.
The exact Python wording is immaterial; a fixed string stands for it. -/
def noneAttrError : String := "NoneType object has no attribute name"

/-- Lines 72-84: when a document is uploaded and the stored content is
empty, extract the content (line 74, outside any `try`: an extraction
exception escapes), store it, and either summarize it (lines 76-82, in a
`try`) or display the sentinel as an error (line 84). -/
def uploadBlock (o : Oracles) (inp : Inputs) (st : SessionState) : RunResult :=
  match inp.uploaded_file with
  | none => ⟨st, [], none⟩
  | some f =>
    if st.document_content = "" then
      match get_file_content o f with
      | .error e => ⟨st, [], some e⟩
      | .ok content =>
        let st' := { st with document_content := content }
        if st'.document_content ≠ "Unsupported file type." then
          match o.get_model st'.gemini_api_key with
          | .error e =>
              ⟨st', [.configureModel st'.gemini_api_key,
                     .errorMsg ("Error summarizing document: " ++ e)], none⟩
          | .ok _ =>
            match o.generate_content (summarizePrompt st'.document_content) with
            | .error e =>
                ⟨st', [.configureModel st'.gemini_api_key,
                       .generateContent (summarizePrompt st'.document_content),
                       .errorMsg ("Error summarizing document: " ++ e)], none⟩
            | .ok resp =>
                ⟨st', [.configureModel st'.gemini_api_key,
                       .generateContent (summarizePrompt st'.document_content),
                       .subheader "Document Summary:", .write resp], none⟩
        else
          ⟨st', [.errorMsg st'.document_content], none⟩
    else ⟨st, [], none⟩

/-- Lines 96-97: after a successful analysis proposal, the conditional
sheet save.  These lines only display and call the spreadsheet client;
they never change the session state, so they are embedded as the list of
events they produce.  Evaluating `uploaded_file.name` with no file raises
inside the enclosing `try` and is caught there (its message tail). -/
def analysisSaveTail (o : Oracles) (inp : Inputs) (st : SessionState) (resp : String) :
    List Ev :=
  match st.google_sheet_credentials with
  | some cj =>
    if cj ≠ [] ∧ inp.google_sheet_name ≠ "" ∧ inp.analysis_worksheet_name ≠ "" then
      match inp.uploaded_file with
      | none =>
          [.errorMsg ("Error generating statistical analysis proposals: " ++ noneAttrError)]
      | some f =>
        let sres := save_to_google_sheet o [f.name, "Analysis Proposal", resp]
          inp.google_sheet_name inp.analysis_worksheet_name cj
        match sres.2 with
        | .ok _ => sres.1
        | .error e =>
            sres.1 ++ [.errorMsg ("Error generating statistical analysis proposals: " ++ e)]
    else []
  | none => []

/-- Lines 89-99: the "Propose Statistical Analysis" button.  The whole
body is inside a `try`; on success, the row is saved when the credentials
are truthy and both names are non-empty (`analysisSaveTail`). -/
def analysisBlock (o : Oracles) (inp : Inputs) (st : SessionState) : RunResult :=
  if inp.analysis_clicked then
    match o.get_model st.gemini_api_key with
    | .error e =>
        ⟨st, [.configureModel st.gemini_api_key,
              .errorMsg ("Error generating statistical analysis proposals: " ++ e)], none⟩
    | .ok _ =>
      match o.generate_content (analysisPrompt st.document_content) with
      | .error e =>
          ⟨st, [.configureModel st.gemini_api_key,
                .generateContent (analysisPrompt st.document_content),
                .errorMsg ("Error generating statistical analysis proposals: " ++ e)], none⟩
      | .ok resp =>
          ⟨st, [Ev.configureModel st.gemini_api_key,
                Ev.generateContent (analysisPrompt st.document_content),
                Ev.subheader "Statistical Analysis Proposals:", Ev.write resp] ++
            analysisSaveTail o inp st resp, none⟩
  else ⟨st, [], none⟩

/-- Lines 101-109: the "Generate Quiz" button, all inside a `try`. -/
def quizBlock (o : Oracles) (inp : Inputs) (st : SessionState) : RunResult :=
  if inp.quiz_clicked then
    match o.get_model st.gemini_api_key with
    | .error e =>
        ⟨st, [.configureModel st.gemini_api_key,
              .errorMsg ("Error generating quiz: " ++ e)], none⟩
    | .ok _ =>
      match o.generate_content (quizPrompt st.document_content) with
      | .error e =>
          ⟨st, [.configureModel st.gemini_api_key,
                .generateContent (quizPrompt st.document_content),
                .errorMsg ("Error generating quiz: " ++ e)], none⟩
      | .ok resp =>
          ⟨st, [.configureModel st.gemini_api_key,
                .generateContent (quizPrompt st.document_content),
                .subheader "Quiz:", .write resp], none⟩
  else ⟨st, [], none⟩

/-- Lines 122-123: after a successful chat exchange, the conditional
sheet save.  Like `analysisSaveTail`, these lines only display and call
the spreadsheet client, so they are embedded as the events they
produce. -/
def chatSaveTail (o : Oracles) (inp : Inputs) (st' : SessionState) (resp : String) :
    List Ev :=
  match st'.google_sheet_credentials with
  | some cj =>
    if cj ≠ [] ∧ inp.google_sheet_name ≠ "" ∧ inp.questions_worksheet_name ≠ "" then
      match inp.uploaded_file with
      | none => [.errorMsg ("Error communicating with Gemini: " ++ noneAttrError)]
      | some f =>
        let sres := save_to_google_sheet o [f.name, inp.user_question, resp]
          inp.google_sheet_name inp.questions_worksheet_name cj
        match sres.2 with
        | .ok _ => sres.1
        | .error e =>
            sres.1 ++ [.errorMsg ("Error communicating with Gemini: " ++ e)]
    else []
  | none => []

/-- Lines 111-129: the chat section.  `get_gemini_model` (line 115) and
`start_chat` (line 116) are outside the `try`, so an exception there
escapes; the `try` (lines 118-123) covers `send_message`, the two history
appends, and the optional sheet save; lines 127-129 then display the
whole (possibly extended) history. -/
def chatBlock (o : Oracles) (inp : Inputs) (st : SessionState) : RunResult :=
  let evs0 := [Ev.subheader "Ask a question about the document or statistical analysis:"]
  if inp.user_question ≠ "" then
    match o.get_model st.gemini_api_key with
    | .error e => ⟨st, evs0 ++ [.configureModel st.gemini_api_key], some e⟩
    | .ok _ =>
      match o.start_chat st.chat_history with
      | .error e =>
          ⟨st, evs0 ++ [.configureModel st.gemini_api_key, .startChatCall st.chat_history], some e⟩
      | .ok _ =>
        let preEvs := evs0 ++ [Ev.configureModel st.gemini_api_key,
                               Ev.startChatCall st.chat_history]
        let msg := chatMessage st.document_content inp.user_question
        match o.send_message st.chat_history msg with
        | .error e =>
            ⟨st, preEvs ++ [.sendMessage st.chat_history msg,
                  .errorMsg ("Error communicating with Gemini: " ++ e)] ++
              st.chat_history.map (fun m => .chatMarkdown m.role m.text), none⟩
        | .ok resp =>
          let st' := { st with chat_history := st.chat_history ++
            [chatTurnUser inp.user_question, chatTurnModel resp] }
          ⟨st', preEvs ++ [Ev.sendMessage st.chat_history msg] ++
            chatSaveTail o inp st' resp ++
            st'.chat_history.map (fun m => .chatMarkdown m.role m.text), none⟩
  else ⟨st, evs0, none⟩

/-- Lines 69-129: the document section of `main`, after the sidebar: the
upload block, then, when the stored document content is truthy
(non-empty), the two buttons and the chat section. -/
def documentSection (o : Oracles) (inp : Inputs) (st : SessionState) (evs : List Ev) : RunResult :=
  let r1 := seqRun ⟨st, evs, none⟩ (uploadBlock o inp)
  seqRun r1 (fun s =>
    if s.document_content ≠ "" then
      seqRun (seqRun (analysisBlock o inp s) (quizBlock o inp)) (chatBlock o inp)
    else ⟨s, [], none⟩)

/-- Embedding of one run of `main` (lines 35-129).  The state argument is
the session state after the default initialisation at lines 38-45.  An
empty API key warns and returns (lines 52-54).  `json.load` at line 60 is
outside any `try`, so a parse exception escapes. -/
def mainRun (o : Oracles) (inp : Inputs) (st : SessionState) : RunResult :=
  let titleEvs := [Ev.title "Chatbot for Document Q&A and Statistical Analysis"]
  if inp.gemini_api_key ≠ "" then
    let st1 := { st with gemini_api_key := inp.gemini_api_key }
    let evs1 := titleEvs ++ [Ev.success "Gemini API Key set!",
                             Ev.subheader "Google Sheet Integration"]
    match inp.credentials_file with
    | some bytes =>
      match o.json_load bytes with
      | .error e => ⟨st1, evs1 ++ [.jsonLoadCall], some e⟩
      | .ok cj =>
        documentSection o inp { st1 with google_sheet_credentials := some cj }
          (evs1 ++ [.jsonLoadCall, .success "Google Sheet credentials loaded!"])
    | none =>
      documentSection o inp st1
        (evs1 ++ [.info "Upload a service account key JSON for Google Sheet integration. Instructions: https://docs.gspread.org/en/latest/oauth2setup.html#service-account"])
  else
    ⟨st, titleEvs ++ [Ev.warning "Please enter your Gemini API Key to proceed."], none⟩

/-! ## Concrete fixtures for witnesses and counterexamples -/

/-- An oracle on which every external operation succeeds, with fixed
deterministic results. -/
def oracleAllOk : Oracles where
  decode_utf8 := fun _ => .ok "decoded text"
  pdf_page_texts := fun _ => .ok ["page one.", "page two."]
  json_load := fun _ => .ok [("type", "service_account")]
  get_model := fun _ => .ok ()
  generate_content := fun _ => .ok "model response"
  start_chat := fun _ => .ok ()
  send_message := fun _ _ => .ok "chat response"
  service_account_from_dict := fun _ => .ok ()
  open_sheet := fun _ => .ok ()
  worksheet := fun _ => .ok ()
  append_row := fun _ _ _ => .ok ()

/-- Like `oracleAllOk`, but `json.load` raises: an invalid credentials
file. -/
def oracleBadJson : Oracles :=
  { oracleAllOk with json_load := fun _ => .error "Expecting value" }

/-- Like `oracleAllOk`, but the credentials file parses to the empty JSON
object `\x7b\x7d`, a falsy dict. -/
def oracleEmptyCreds : Oracles :=
  { oracleAllOk with json_load := fun _ => .ok [] }

/-- A plain-text uploaded file. -/
def fileTxt : UploadedFile := { name := "doc.txt", type := "text/plain", bytes := [104, 105] }

/-- A PDF uploaded file. -/
def filePdf : UploadedFile := { name := "doc.pdf", type := "application/pdf", bytes := [37] }

/-- An uploaded file of an unsupported MIME type. -/
def fileBin : UploadedFile :=
  { name := "doc.bin", type := "application/octet-stream", bytes := [0] }

/-- A fresh session state (the defaults inserted at lines 38-45). -/
def freshState : SessionState :=
  { gemini_api_key := "", chat_history := [], document_content := "",
    google_sheet_credentials := none }

/-- A run in which everything is provided: key, credentials file, sheet
and worksheet names, an uploaded text file, the analysis button clicked,
and a pending question. -/
def inpFull : Inputs :=
  { gemini_api_key := "key", credentials_file := some [123, 125],
    google_sheet_name := "Sheet1", analysis_worksheet_name := "Analysis",
    questions_worksheet_name := "Questions", uploaded_file := some fileTxt,
    analysis_clicked := true, quiz_clicked := false, user_question := "What is it about" }

/-! ## Event predicates and counting -/

/-- The three `generate_content` prompts begin with distinct characters
(`S`, `B`, `G`), so the head character of the prompt identifies which of
the three call sites issued a `generateContent` event. -/
def isSummarizeCall : Ev → Bool
  | .generateContent p => p.data.head? == some 'S'
  | _ => false

/-- A `generateContent` event of the statistical-analysis site. -/
def isAnalysisCall : Ev → Bool
  | .generateContent p => p.data.head? == some 'B'
  | _ => false

/-- A `generateContent` event of the quiz site. -/
def isQuizCall : Ev → Bool
  | .generateContent p => p.data.head? == some 'G'
  | _ => false

/-- A `send_message` event. -/
def isSendCall : Ev → Bool
  | .sendMessage _ _ => true
  | _ => false

/-- An `append_row` event. -/
def isAppendCall : Ev → Bool
  | .sheetAppend _ _ _ => true
  | _ => false

/-- One of the four spreadsheet-client calls. -/
def isSheetCall : Ev → Bool
  | .sheetClient => true
  | .sheetOpen _ => true
  | .sheetWorksheet _ => true
  | .sheetAppend _ _ _ => true
  | _ => false

/-- How many events of a list satisfy a predicate. -/
def countP (p : Ev → Bool) (l : List Ev) : Nat :=
  (l.filter p).length

theorem countP_nil (p : Ev → Bool) : countP p [] = 0 := rfl

theorem countP_append (p : Ev → Bool) (l₁ l₂ : List Ev) :
    countP p (l₁ ++ l₂) = countP p l₁ + countP p l₂ := by
  simp [countP, List.filter_append]

/-! ## Head characters of the three prompts -/

theorem summarizePrompt_head (c : String) : (summarizePrompt c).data.head? = some 'S' := by
  have h : ("Summarize the following document:\n\n").data =
      'S' :: ("ummarize the following document:\n\n").data := rfl
  rw [summarizePrompt, String.data_append, h]
  rfl

theorem analysisPrompt_head (c : String) : (analysisPrompt c).data.head? = some 'B' := by
  have h : ("Based on the following document content, propose relevant statistical analysis methods and why they are suitable:\n\n").data =
      'B' :: ("ased on the following document content, propose relevant statistical analysis methods and why they are suitable:\n\n").data := rfl
  rw [analysisPrompt, String.data_append, h]
  rfl

theorem quizPrompt_head (c : String) : (quizPrompt c).data.head? = some 'G' := by
  have h : ("Generate a multiple-choice quiz with answers based on the following document content:\n\n").data =
      'G' :: ("enerate a multiple-choice quiz with answers based on the following document content:\n\n").data := rfl
  rw [quizPrompt, String.data_append, h]
  rfl

theorem isSummarizeCall_summarize (c : String) :
    isSummarizeCall (.generateContent (summarizePrompt c)) = true := by
  simp [isSummarizeCall, summarizePrompt_head]

theorem isSummarizeCall_analysis (c : String) :
    isSummarizeCall (.generateContent (analysisPrompt c)) = false := by
  simp [isSummarizeCall, analysisPrompt_head]

theorem isSummarizeCall_quiz (c : String) :
    isSummarizeCall (.generateContent (quizPrompt c)) = false := by
  simp [isSummarizeCall, quizPrompt_head]

theorem isAnalysisCall_summarize (c : String) :
    isAnalysisCall (.generateContent (summarizePrompt c)) = false := by
  simp [isAnalysisCall, summarizePrompt_head]

theorem isAnalysisCall_analysis (c : String) :
    isAnalysisCall (.generateContent (analysisPrompt c)) = true := by
  simp [isAnalysisCall, analysisPrompt_head]

theorem isAnalysisCall_quiz (c : String) :
    isAnalysisCall (.generateContent (quizPrompt c)) = false := by
  simp [isAnalysisCall, quizPrompt_head]

theorem isQuizCall_summarize (c : String) :
    isQuizCall (.generateContent (summarizePrompt c)) = false := by
  simp [isQuizCall, summarizePrompt_head]

theorem isQuizCall_analysis (c : String) :
    isQuizCall (.generateContent (analysisPrompt c)) = false := by
  simp [isQuizCall, analysisPrompt_head]

theorem isQuizCall_quiz (c : String) :
    isQuizCall (.generateContent (quizPrompt c)) = true := by
  simp [isQuizCall, quizPrompt_head]

/-! ## Sequencing and sheet-writer lemmas -/

theorem seqRun_none {r : RunResult} (f : SessionState → RunResult) (h : r.uncaught = none) :
    seqRun r f = ⟨(f r.state).state, r.events ++ (f r.state).events, (f r.state).uncaught⟩ := by
  unfold seqRun
  rw [h]

theorem seqRun_some {r : RunResult} (f : SessionState → RunResult) (e : String)
    (h : r.uncaught = some e) : seqRun r f = r := by
  unfold seqRun
  rw [h]

theorem save_to_google_sheet_ok (o : Oracles) (data : List String) (sn wn : String)
    (cj : Creds) : (save_to_google_sheet o data sn wn cj).2 = Except.ok () := by
  unfold save_to_google_sheet
  split <;> rfl

theorem save_body_calls (o : Oracles) (data : List String) (sn wn : String) (cj : Creds) :
    (save_body o data sn wn cj).1 <+:
      [Ev.sheetClient, Ev.sheetOpen sn, Ev.sheetWorksheet wn, Ev.sheetAppend sn wn data] := by
  unfold save_body
  split
  · exact ⟨_, rfl⟩
  · split
    · exact ⟨_, rfl⟩
    · split
      · exact ⟨_, rfl⟩
      · split
        · exact ⟨_, rfl⟩
        · exact ⟨_, rfl⟩

theorem countP_mono_of_sublist (p : Ev → Bool) {l₁ l₂ : List Ev} (h : List.Sublist l₁ l₂) :
    countP p l₁ ≤ countP p l₂ :=
  List.Sublist.length_le (List.Sublist.filter p h)

theorem countP_eq_zero_of_forall (p : Ev → Bool) (l : List Ev)
    (h : ∀ e ∈ l, p e = false) : countP p l = 0 := by
  simp only [countP, List.length_eq_zero]
  rw [List.filter_eq_nil_iff]
  intro a ha
  simp [h a ha]

theorem save_events_count_append (o : Oracles) (data : List String) (sn wn : String)
    (cj : Creds) : countP isAppendCall (save_to_google_sheet o data sn wn cj).1 ≤ 1 := by
  unfold save_to_google_sheet
  have hb := save_body_calls o data sn wn cj
  have hcount : countP isAppendCall
      [Ev.sheetClient, Ev.sheetOpen sn, Ev.sheetWorksheet wn, Ev.sheetAppend sn wn data] = 1 := by
    simp [countP, isAppendCall]
  split
  · next evs u heq =>
      have h1 : countP isAppendCall evs ≤ 1 := by
        rw [← hcount]
        exact countP_mono_of_sublist _ (by rw [heq] at hb; exact hb.sublist)
      calc countP isAppendCall (evs ++ [Ev.success _]) = countP isAppendCall evs + 0 := by
            rw [countP_append]; rfl
        _ ≤ 1 := by omega
  · next evs e heq =>
      have h1 : countP isAppendCall evs ≤ 1 := by
        rw [← hcount]
        exact countP_mono_of_sublist _ (by rw [heq] at hb; exact hb.sublist)
      calc countP isAppendCall (evs ++ [Ev.errorMsg _]) = countP isAppendCall evs + 0 := by
            rw [countP_append]; rfl
        _ ≤ 1 := by omega

theorem save_events_count_zero (o : Oracles) (data : List String) (sn wn : String)
    (cj : Creds) (p : Ev → Bool)
    (h1 : p .sheetClient = false) (h2 : ∀ s, p (.sheetOpen s) = false)
    (h3 : ∀ s, p (.sheetWorksheet s) = false)
    (h4 : ∀ a b r, p (.sheetAppend a b r) = false)
    (h5 : ∀ s, p (.success s) = false) (h6 : ∀ s, p (.errorMsg s) = false) :
    countP p (save_to_google_sheet o data sn wn cj).1 = 0 := by
  apply countP_eq_zero_of_forall
  intro e he
  unfold save_to_google_sheet at he
  have hmem : ∀ evs : List Ev,
      evs <+: [Ev.sheetClient, Ev.sheetOpen sn, Ev.sheetWorksheet wn,
        Ev.sheetAppend sn wn data] → ∀ x ∈ evs, p x = false := by
    intro evs hpre x hx
    have := hpre.sublist.subset hx
    simp only [List.mem_cons, List.not_mem_nil, or_false] at this
    rcases this with h | h | h | h <;> subst h
    · exact h1
    · exact h2 _
    · exact h3 _
    · exact h4 _ _ _
  revert he
  split
  · next evs u heq =>
      intro he
      rcases List.mem_append.mp he with h | h
      · have hfst : (save_body o data sn wn cj).1 = evs := by rw [heq]
        exact hmem evs (hfst ▸ save_body_calls o data sn wn cj) e h
      · simp only [List.mem_singleton] at h
        subst h
        exact h5 _
  · next evs e' heq =>
      intro he
      rcases List.mem_append.mp he with h | h
      · have hfst : (save_body o data sn wn cj).1 = evs := by rw [heq]
        exact hmem evs (hfst ▸ save_body_calls o data sn wn cj) e h
      · simp only [List.mem_singleton] at h
        subst h
        exact h6 _

/-! ## Frame lemmas for the handler blocks -/

theorem analysisBlock_state (o : Oracles) (inp : Inputs) (st : SessionState) :
    (analysisBlock o inp st).state = st := by
  unfold analysisBlock
  repeat first | rfl | split

theorem analysisBlock_uncaught (o : Oracles) (inp : Inputs) (st : SessionState) :
    (analysisBlock o inp st).uncaught = none := by
  unfold analysisBlock
  repeat first | rfl | split

theorem quizBlock_state (o : Oracles) (inp : Inputs) (st : SessionState) :
    (quizBlock o inp st).state = st := by
  unfold quizBlock
  repeat first | rfl | split

theorem quizBlock_uncaught (o : Oracles) (inp : Inputs) (st : SessionState) :
    (quizBlock o inp st).uncaught = none := by
  unfold quizBlock
  repeat first | rfl | split

theorem uploadBlock_chat_history (o : Oracles) (inp : Inputs) (st : SessionState) :
    (uploadBlock o inp st).state.chat_history = st.chat_history := by
  unfold uploadBlock
  repeat first | rfl | split | (dsimp only; split)

theorem uploadBlock_key (o : Oracles) (inp : Inputs) (st : SessionState) :
    (uploadBlock o inp st).state.gemini_api_key = st.gemini_api_key := by
  unfold uploadBlock
  repeat first | rfl | split | (dsimp only; split)

theorem uploadBlock_creds (o : Oracles) (inp : Inputs) (st : SessionState) :
    (uploadBlock o inp st).state.google_sheet_credentials = st.google_sheet_credentials := by
  unfold uploadBlock
  repeat first | rfl | split | (dsimp only; split)

theorem uploadBlock_of_doc_nonempty (o : Oracles) (inp : Inputs) (st : SessionState)
    (h : st.document_content ≠ "") : uploadBlock o inp st = ⟨st, [], none⟩ := by
  unfold uploadBlock
  split
  · rfl
  · rw [if_neg h]

theorem chatBlock_state (o : Oracles) (inp : Inputs) (st : SessionState) :
    (chatBlock o inp st).state = st ∨
    ∃ resp, o.send_message st.chat_history
        (chatMessage st.document_content inp.user_question) = .ok resp ∧
      (chatBlock o inp st).state = { st with chat_history := st.chat_history ++
        [chatTurnUser inp.user_question, chatTurnModel resp] } := by
  unfold chatBlock
  split
  · split
    · exact Or.inl rfl
    · split
      · exact Or.inl rfl
      · dsimp only
        cases hsend : o.send_message st.chat_history
            (chatMessage st.document_content inp.user_question) with
        | error e => exact Or.inl rfl
        | ok resp => exact Or.inr ⟨resp, rfl, rfl⟩
  · exact Or.inl rfl

theorem chatBlock_uncaught_of_ok (o : Oracles) (inp : Inputs) (st : SessionState)
    (hm : o.get_model st.gemini_api_key = .ok ())
    (hs : o.start_chat st.chat_history = .ok ()) :
    (chatBlock o inp st).uncaught = none := by
  unfold chatBlock
  split
  · rw [hm, hs]
    dsimp only
    split <;> rfl
  · rfl

/-! ## Event-count lemmas for the handler blocks -/

theorem analysisSaveTail_count_zero (o : Oracles) (inp : Inputs) (st : SessionState)
    (resp : String) (p : Ev → Bool)
    (h1 : p .sheetClient = false) (h2 : ∀ s, p (.sheetOpen s) = false)
    (h3 : ∀ s, p (.sheetWorksheet s) = false)
    (h4 : ∀ a b r, p (.sheetAppend a b r) = false)
    (h5 : ∀ s, p (.success s) = false) (h6 : ∀ s, p (.errorMsg s) = false) :
    countP p (analysisSaveTail o inp st resp) = 0 := by
  unfold analysisSaveTail
  split
  · split
    · split
      · simp [countP, List.filter_cons, h6]
      · dsimp only
        split
        · exact save_events_count_zero _ _ _ _ _ p h1 h2 h3 h4 h5 h6
        · rw [countP_append, save_events_count_zero _ _ _ _ _ p h1 h2 h3 h4 h5 h6]
          simp [countP, List.filter_cons, h6]
    · rfl
  · rfl

theorem countP_isAppend_errorMsg (s : String) : countP isAppendCall [Ev.errorMsg s] = 0 := rfl

theorem analysisSaveTail_count_append (o : Oracles) (inp : Inputs) (st : SessionState)
    (resp : String) : countP isAppendCall (analysisSaveTail o inp st resp) ≤ 1 := by
  unfold analysisSaveTail
  split
  · rename_i cj heqcj
    split
    · split
      · simp [countP, List.filter_cons, isAppendCall]
      · rename_i f heqf
        dsimp only
        split
        · exact save_events_count_append _ _ _ _ _
        · rw [countP_append, countP_isAppend_errorMsg]
          have h := save_events_count_append o [f.name, "Analysis Proposal", resp]
            inp.google_sheet_name inp.analysis_worksheet_name cj
          omega
    · simp [countP]
  · simp [countP]

theorem chatSaveTail_count_zero (o : Oracles) (inp : Inputs) (st' : SessionState)
    (resp : String) (p : Ev → Bool)
    (h1 : p .sheetClient = false) (h2 : ∀ s, p (.sheetOpen s) = false)
    (h3 : ∀ s, p (.sheetWorksheet s) = false)
    (h4 : ∀ a b r, p (.sheetAppend a b r) = false)
    (h5 : ∀ s, p (.success s) = false) (h6 : ∀ s, p (.errorMsg s) = false) :
    countP p (chatSaveTail o inp st' resp) = 0 := by
  unfold chatSaveTail
  split
  · split
    · split
      · simp [countP, List.filter_cons, h6]
      · dsimp only
        split
        · exact save_events_count_zero _ _ _ _ _ p h1 h2 h3 h4 h5 h6
        · rw [countP_append, save_events_count_zero _ _ _ _ _ p h1 h2 h3 h4 h5 h6]
          simp [countP, List.filter_cons, h6]
    · rfl
  · rfl

theorem chatSaveTail_count_append (o : Oracles) (inp : Inputs) (st' : SessionState)
    (resp : String) : countP isAppendCall (chatSaveTail o inp st' resp) ≤ 1 := by
  unfold chatSaveTail
  split
  · rename_i cj heqcj
    split
    · split
      · simp [countP, List.filter_cons, isAppendCall]
      · rename_i f heqf
        dsimp only
        split
        · exact save_events_count_append _ _ _ _ _
        · rw [countP_append, countP_isAppend_errorMsg]
          have h := save_events_count_append o [f.name, inp.user_question, resp]
            inp.google_sheet_name inp.questions_worksheet_name cj
          omega
    · simp [countP]
  · simp [countP]

theorem countP_cons (p : Ev → Bool) (a : Ev) (l : List Ev) :
    countP p (a :: l) = (if p a = true then 1 else 0) + countP p l := by
  simp only [countP, List.filter_cons]
  split <;> simp [Nat.add_comm]

theorem countP_chatMarkdown_map (p : Ev → Bool) (hmark : ∀ r t, p (.chatMarkdown r t) = false)
    (hist : List ChatTurn) :
    countP p (hist.map (fun m => Ev.chatMarkdown m.role m.text)) = 0 := by
  apply countP_eq_zero_of_forall
  intro e he
  obtain ⟨m, hm, rfl⟩ := List.mem_map.mp he
  exact hmark _ _

theorem analysisBlock_count_zero (o : Oracles) (inp : Inputs) (st : SessionState)
    (p : Ev → Bool)
    (h1 : p .sheetClient = false) (h2 : ∀ s, p (.sheetOpen s) = false)
    (h3 : ∀ s, p (.sheetWorksheet s) = false)
    (h4 : ∀ a b r, p (.sheetAppend a b r) = false)
    (h5 : ∀ s, p (.success s) = false) (h6 : ∀ s, p (.errorMsg s) = false)
    (hconf : ∀ s, p (.configureModel s) = false)
    (hsub : ∀ s, p (.subheader s) = false)
    (hwrite : ∀ s, p (.write s) = false)
    (hgen : ∀ c, p (.generateContent (analysisPrompt c)) = false) :
    countP p (analysisBlock o inp st).events = 0 := by
  unfold analysisBlock
  split
  · split
    · simp [countP, List.filter_cons, hconf, h6]
    · split
      · simp [countP, List.filter_cons, hconf, h6, hgen]
      · rw [countP_append]
        rw [analysisSaveTail_count_zero o inp st _ p h1 h2 h3 h4 h5 h6]
        simp [countP, List.filter_cons, hconf, hsub, hwrite, hgen]
  · rfl

theorem analysisBlock_count_analysis (o : Oracles) (inp : Inputs) (st : SessionState) :
    countP isAnalysisCall (analysisBlock o inp st).events ≤ 1 := by
  unfold analysisBlock
  split
  · split
    · simp [countP_cons, countP_nil, isAnalysisCall]
    · split
      · simp [countP_cons, countP_nil, isAnalysisCall, analysisPrompt_head]
      · rw [countP_append]
        rw [analysisSaveTail_count_zero o inp st _ isAnalysisCall rfl (fun _ => rfl)
          (fun _ => rfl) (fun _ _ _ => rfl) (fun _ => rfl) (fun _ => rfl)]
        simp [countP_cons, countP_nil, isAnalysisCall, analysisPrompt_head]
  · simp [countP]

theorem analysisBlock_count_append (o : Oracles) (inp : Inputs) (st : SessionState) :
    countP isAppendCall (analysisBlock o inp st).events ≤ 1 := by
  unfold analysisBlock
  split
  · split
    · simp [countP_cons, countP_nil, isAppendCall]
    · split
      · simp [countP_cons, countP_nil, isAppendCall]
      · rw [countP_append]
        simp only [countP_cons, countP_nil, isAppendCall]
        simp only [Bool.false_eq_true, if_false, Nat.zero_add, Nat.add_zero]
        exact analysisSaveTail_count_append o inp st _
  · simp [countP]

theorem quizBlock_count_zero (o : Oracles) (inp : Inputs) (st : SessionState)
    (p : Ev → Bool)
    (h6 : ∀ s, p (.errorMsg s) = false)
    (hconf : ∀ s, p (.configureModel s) = false)
    (hsub : ∀ s, p (.subheader s) = false)
    (hwrite : ∀ s, p (.write s) = false)
    (hgen : ∀ c, p (.generateContent (quizPrompt c)) = false) :
    countP p (quizBlock o inp st).events = 0 := by
  unfold quizBlock
  split
  · split
    · simp [countP, List.filter_cons, hconf, h6]
    · split
      · simp [countP, List.filter_cons, hconf, h6, hgen]
      · simp [countP, List.filter_cons, hconf, hsub, hwrite, hgen]
  · rfl

theorem quizBlock_count_quiz (o : Oracles) (inp : Inputs) (st : SessionState) :
    countP isQuizCall (quizBlock o inp st).events ≤ 1 := by
  unfold quizBlock
  split
  · split
    · simp [countP_cons, countP_nil, isQuizCall]
    · split
      · simp [countP_cons, countP_nil, isQuizCall, quizPrompt_head]
      · simp [countP_cons, countP_nil, isQuizCall, quizPrompt_head]
  · simp [countP]

theorem uploadBlock_count_zero (o : Oracles) (inp : Inputs) (st : SessionState)
    (p : Ev → Bool)
    (h6 : ∀ s, p (.errorMsg s) = false)
    (hconf : ∀ s, p (.configureModel s) = false)
    (hsub : ∀ s, p (.subheader s) = false)
    (hwrite : ∀ s, p (.write s) = false)
    (hgen : ∀ c, p (.generateContent (summarizePrompt c)) = false) :
    countP p (uploadBlock o inp st).events = 0 := by
  unfold uploadBlock
  split
  · rfl
  · split
    · split
      · rfl
      · dsimp only
        split
        · split
          · simp [countP, List.filter_cons, hconf, h6]
          · split
            · simp [countP, List.filter_cons, hconf, h6, hgen]
            · simp [countP, List.filter_cons, hconf, hsub, hwrite, hgen]
        · simp [countP, List.filter_cons, h6]
    · rfl

theorem uploadBlock_count_summarize (o : Oracles) (inp : Inputs) (st : SessionState) :
    countP isSummarizeCall (uploadBlock o inp st).events ≤ 1 := by
  unfold uploadBlock
  split
  · simp [countP]
  · split
    · split
      · simp [countP]
      · dsimp only
        split
        · split
          · simp [countP_cons, countP_nil, isSummarizeCall]
          · split
            · simp [countP_cons, countP_nil, isSummarizeCall, summarizePrompt_head]
            · simp [countP_cons, countP_nil, isSummarizeCall, summarizePrompt_head]
        · simp [countP_cons, countP_nil, isSummarizeCall]
    · simp [countP]

theorem chatBlock_count_zero (o : Oracles) (inp : Inputs) (st : SessionState)
    (p : Ev → Bool)
    (h1 : p .sheetClient = false) (h2 : ∀ s, p (.sheetOpen s) = false)
    (h3 : ∀ s, p (.sheetWorksheet s) = false)
    (h4 : ∀ a b r, p (.sheetAppend a b r) = false)
    (h5 : ∀ s, p (.success s) = false) (h6 : ∀ s, p (.errorMsg s) = false)
    (hconf : ∀ s, p (.configureModel s) = false)
    (hsub : ∀ s, p (.subheader s) = false)
    (hstart : ∀ h, p (.startChatCall h) = false)
    (hsend : ∀ h m, p (.sendMessage h m) = false)
    (hmark : ∀ r t, p (.chatMarkdown r t) = false) :
    countP p (chatBlock o inp st).events = 0 := by
  unfold chatBlock
  split
  · split
    · simp [countP_cons, countP_nil, countP_append, hsub, hconf]
    · split
      · simp [countP_cons, countP_nil, countP_append, hsub, hconf, hstart]
      · dsimp only
        split
        · rw [countP_append, countP_append, countP_chatMarkdown_map p hmark]
          simp [countP_cons, countP_nil, countP_append, hsub, hconf, hstart, hsend, h6]
        · rw [countP_append, countP_append, countP_append,
              countP_chatMarkdown_map p hmark,
              chatSaveTail_count_zero o inp _ _ p h1 h2 h3 h4 h5 h6]
          simp [countP_cons, countP_nil, countP_append, hsub, hconf, hstart, hsend]
  · simp [countP_cons, countP_nil, hsub]

theorem chatBlock_count_send (o : Oracles) (inp : Inputs) (st : SessionState) :
    countP isSendCall (chatBlock o inp st).events ≤ 1 := by
  unfold chatBlock
  split
  · split
    · simp [countP_cons, countP_nil, countP_append, isSendCall]
    · split
      · simp [countP_cons, countP_nil, countP_append, isSendCall]
      · dsimp only
        split
        · rw [countP_append, countP_append,
              countP_chatMarkdown_map isSendCall (fun _ _ => rfl)]
          simp [countP_cons, countP_nil, countP_append, isSendCall]
        · rw [countP_append, countP_append, countP_append,
              countP_chatMarkdown_map isSendCall (fun _ _ => rfl),
              chatSaveTail_count_zero o inp _ _ isSendCall rfl (fun _ => rfl)
                (fun _ => rfl) (fun _ _ _ => rfl) (fun _ => rfl) (fun _ => rfl)]
          simp [countP_cons, countP_nil, countP_append, isSendCall]
  · simp [countP_cons, countP_nil, isSendCall]

theorem chatBlock_count_append (o : Oracles) (inp : Inputs) (st : SessionState) :
    countP isAppendCall (chatBlock o inp st).events ≤ 1 := by
  unfold chatBlock
  split
  · split
    · simp [countP_cons, countP_nil, countP_append, isAppendCall]
    · split
      · simp [countP_cons, countP_nil, countP_append, isAppendCall]
      · dsimp only
        split
        · rw [countP_append, countP_append,
              countP_chatMarkdown_map isAppendCall (fun _ _ => rfl)]
          simp [countP_cons, countP_nil, countP_append, isAppendCall]
        · rw [countP_append, countP_append, countP_append,
              countP_chatMarkdown_map isAppendCall (fun _ _ => rfl)]
          simp only [countP_cons, countP_nil, countP_append, isAppendCall]
          simp only [Bool.false_eq_true, if_false, Nat.zero_add, Nat.add_zero]
          exact chatSaveTail_count_append o inp _ _
  · simp [countP_cons, countP_nil, isAppendCall]

/-! ## Decomposition of the document section -/

theorem seqRun_mk_none (st : SessionState) (evs : List Ev) (f : SessionState → RunResult) :
    seqRun ⟨st, evs, none⟩ f = ⟨(f st).state, evs ++ (f st).events, (f st).uncaught⟩ := rfl

theorem seqRun_mk_some (st : SessionState) (evs : List Ev) (e : String)
    (f : SessionState → RunResult) : seqRun ⟨st, evs, some e⟩ f = ⟨st, evs, some e⟩ := rfl

theorem documentSection_of_uncaught (o : Oracles) (inp : Inputs) (st : SessionState)
    (evs : List Ev) (e : String) (hu : (uploadBlock o inp st).uncaught = some e) :
    documentSection o inp st evs =
      ⟨(uploadBlock o inp st).state, evs ++ (uploadBlock o inp st).events, some e⟩ := by
  unfold documentSection
  rw [seqRun_mk_none st evs (uploadBlock o inp), hu, seqRun_mk_some]

theorem documentSection_of_doc (o : Oracles) (inp : Inputs) (st : SessionState)
    (evs : List Ev) (hu : (uploadBlock o inp st).uncaught = none)
    (hd : (uploadBlock o inp st).state.document_content ≠ "") :
    documentSection o inp st evs =
      ⟨(chatBlock o inp (uploadBlock o inp st).state).state,
       (evs ++ (uploadBlock o inp st).events) ++
         (((analysisBlock o inp (uploadBlock o inp st).state).events ++
           (quizBlock o inp (uploadBlock o inp st).state).events) ++
          (chatBlock o inp (uploadBlock o inp st).state).events),
       (chatBlock o inp (uploadBlock o inp st).state).uncaught⟩ := by
  unfold documentSection
  rw [seqRun_mk_none st evs (uploadBlock o inp), hu, seqRun_mk_none]
  rw [if_pos hd]
  rw [seqRun_none (quizBlock o inp) (analysisBlock_uncaught o inp _), analysisBlock_state,
    quizBlock_state, quizBlock_uncaught, seqRun_mk_none]

theorem documentSection_of_nodoc (o : Oracles) (inp : Inputs) (st : SessionState)
    (evs : List Ev) (hu : (uploadBlock o inp st).uncaught = none)
    (hd : (uploadBlock o inp st).state.document_content = "") :
    documentSection o inp st evs =
      ⟨(uploadBlock o inp st).state, (evs ++ (uploadBlock o inp st).events) ++ [], none⟩ := by
  unfold documentSection
  rw [seqRun_mk_none st evs (uploadBlock o inp), hu, seqRun_mk_none]
  rw [if_neg (by simp [hd])]

theorem documentSection_doc_content (o : Oracles) (inp : Inputs) (st : SessionState)
    (evs : List Ev) :
    (documentSection o inp st evs).state.document_content =
      (uploadBlock o inp st).state.document_content := by
  rcases hu : (uploadBlock o inp st).uncaught with _ | e
  · by_cases hd : (uploadBlock o inp st).state.document_content = ""
    · rw [documentSection_of_nodoc o inp st evs hu hd]
    · rw [documentSection_of_doc o inp st evs hu hd]
      rcases chatBlock_state o inp (uploadBlock o inp st).state with h | ⟨resp, _, h⟩
      · rw [h]
      · rw [h]
  · rw [documentSection_of_uncaught o inp st evs e hu]

theorem chatBlock_doc_content (o : Oracles) (inp : Inputs) (st : SessionState) :
    (chatBlock o inp st).state.document_content = st.document_content := by
  rcases chatBlock_state o inp st with h | ⟨resp, _, h⟩
  · rw [h]
  · rw [h]

theorem chatBlock_creds (o : Oracles) (inp : Inputs) (st : SessionState) :
    (chatBlock o inp st).state.google_sheet_credentials = st.google_sheet_credentials := by
  rcases chatBlock_state o inp st with h | ⟨resp, _, h⟩
  · rw [h]
  · rw [h]

theorem documentSection_chat_history (o : Oracles) (inp : Inputs) (st : SessionState)
    (evs : List Ev) :
    (documentSection o inp st evs).state.chat_history = st.chat_history ∨
    ∃ q r, (documentSection o inp st evs).state.chat_history =
      st.chat_history ++ [chatTurnUser q, chatTurnModel r] := by
  rcases hu : (uploadBlock o inp st).uncaught with _ | e
  · by_cases hd : (uploadBlock o inp st).state.document_content = ""
    · rw [documentSection_of_nodoc o inp st evs hu hd]
      exact Or.inl (uploadBlock_chat_history o inp st)
    · rw [documentSection_of_doc o inp st evs hu hd]
      rcases chatBlock_state o inp (uploadBlock o inp st).state with h | ⟨resp, _, h⟩
      · rw [h]
        exact Or.inl (uploadBlock_chat_history o inp st)
      · rw [h]
        refine Or.inr ⟨inp.user_question, resp, ?_⟩
        rw [← uploadBlock_chat_history o inp st]
  · rw [documentSection_of_uncaught o inp st evs e hu]
    exact Or.inl (uploadBlock_chat_history o inp st)

theorem documentSection_count_eq (o : Oracles) (inp : Inputs) (st : SessionState)
    (evs : List Ev) (p : Ev → Bool) (hevs : countP p evs = 0)
    (hz : ∀ s, countP p (analysisBlock o inp s).events = 0 ∧
      countP p (quizBlock o inp s).events = 0 ∧ countP p (chatBlock o inp s).events = 0) :
    countP p (documentSection o inp st evs).events =
      countP p (uploadBlock o inp st).events := by
  rcases hu : (uploadBlock o inp st).uncaught with _ | e
  · by_cases hd : (uploadBlock o inp st).state.document_content = ""
    · rw [documentSection_of_nodoc o inp st evs hu hd]
      dsimp only
      rw [countP_append, countP_append, hevs, countP_nil]
      omega
    · rw [documentSection_of_doc o inp st evs hu hd]
      dsimp only
      rw [countP_append, countP_append, countP_append, countP_append, hevs,
        (hz _).1, (hz _).2.1, (hz _).2.2]
      omega
  · rw [documentSection_of_uncaught o inp st evs e hu]
    dsimp only
    rw [countP_append, hevs]
    omega

theorem documentSection_count_le (o : Oracles) (inp : Inputs) (st : SessionState)
    (evs : List Ev) (p : Ev → Bool) (n m : Nat) (hevs : countP p evs = 0)
    (hup : countP p (uploadBlock o inp st).events ≤ n)
    (ha : ∀ s, countP p (analysisBlock o inp s).events +
      countP p (quizBlock o inp s).events + countP p (chatBlock o inp s).events ≤ m) :
    countP p (documentSection o inp st evs).events ≤ n + m := by
  rcases hu : (uploadBlock o inp st).uncaught with _ | e
  · by_cases hd : (uploadBlock o inp st).state.document_content = ""
    · rw [documentSection_of_nodoc o inp st evs hu hd]
      dsimp only
      rw [countP_append, countP_append, hevs, countP_nil]
      omega
    · rw [documentSection_of_doc o inp st evs hu hd]
      dsimp only
      rw [countP_append, countP_append, countP_append, countP_append, hevs]
      have := ha (uploadBlock o inp st).state
      omega
  · rw [documentSection_of_uncaught o inp st evs e hu]
    dsimp only
    rw [countP_append, hevs]
    omega

/-! ## C1: the file-content extraction case analysis -/

/-- C1: `get_file_content` performs an ordered case analysis on the MIME
type: if it contains "text" or "markdown", the bytes are decoded as UTF-8;
otherwise, if it contains "pdf", the result is the concatenation, in page
order, of the extracted text of every page; otherwise the string
"Unsupported file type." is returned. -/
theorem C1_get_file_content_cases (o : Oracles) (f : UploadedFile) :
    ((strContains f.type "text" = true ∨ strContains f.type "markdown" = true) →
       get_file_content o f = o.decode_utf8 f.bytes)
    ∧ (strContains f.type "text" = false → strContains f.type "markdown" = false →
       strContains f.type "pdf" = true →
       ∀ pages, o.pdf_page_texts f.bytes = .ok pages →
         get_file_content o f = .ok (String.join pages))
    ∧ (strContains f.type "text" = false → strContains f.type "markdown" = false →
       strContains f.type "pdf" = false →
       get_file_content o f = .ok "Unsupported file type.") := by
  refine ⟨?_, ?_, ?_⟩
  · intro h
    rcases h with h | h <;> simp [get_file_content, h]
  · intro h1 h2 h3 pages hp
    simp [get_file_content, h1, h2, h3, hp, String.join]
  · intro h1 h2 h3
    simp [get_file_content, h1, h2, h3]

/-- Witness for C1: a concrete PDF upload concatenates the two page
texts; the other two branches at concrete text and binary files. -/
theorem C1_get_file_content_cases_witness :
    get_file_content oracleAllOk filePdf = Except.ok "page one.page two."
    ∧ get_file_content oracleAllOk fileTxt = Except.ok "decoded text"
    ∧ get_file_content oracleAllOk fileBin = Except.ok "Unsupported file type." :=
  ⟨((C1_get_file_content_cases oracleAllOk filePdf).2.1 (by decide) (by decide) (by decide)
      ["page one.", "page two."] rfl).trans rfl,
   (C1_get_file_content_cases oracleAllOk fileTxt).1 (Or.inl (by decide)),
   (C1_get_file_content_cases oracleAllOk fileBin).2.2 (by decide) (by decide) (by decide)⟩

/-! ## C3: the sheet writer -/

theorem save_to_google_sheet_all_ok (o : Oracles) (data : List String) (sn wn : String)
    (cj : Creds)
    (h1 : o.service_account_from_dict cj = .ok ()) (h2 : o.open_sheet sn = .ok ())
    (h3 : o.worksheet wn = .ok ()) (h4 : o.append_row sn wn data = .ok ()) :
    save_to_google_sheet o data sn wn cj =
      ([Ev.sheetClient, Ev.sheetOpen sn, Ev.sheetWorksheet wn, Ev.sheetAppend sn wn data,
        Ev.success ("Data saved to Google Sheet " ++ sn ++ " (worksheet " ++ wn ++ ")")],
       Except.ok ()) := by
  unfold save_to_google_sheet save_body
  rw [h1]
  dsimp only
  rw [h2]
  dsimp only
  rw [h3]
  dsimp only
  rw [h4]
  rfl

theorem save_body_events_sheet (o : Oracles) (data : List String) (sn wn : String)
    (cj : Creds) : ∀ e ∈ (save_body o data sn wn cj).1, isSheetCall e = true := by
  intro e he
  have hpre := save_body_calls o data sn wn cj
  have := hpre.sublist.subset he
  simp only [List.mem_cons, List.not_mem_nil, or_false] at this
  rcases this with h | h | h | h <;> subst h <;> rfl

/-- C3: `save_to_google_sheet` builds the client, opens the sheet, opens
the worksheet and appends the row, in that order (a prefix of those four
calls when a step raises); on an all-success oracle it performs exactly
the four calls followed by the success display; a body exception is
displayed as an error message; and the function never propagates an
exception to its caller. -/
theorem C3_save_to_google_sheet_spec (o : Oracles) (data : List String)
    (sn wn : String) (cj : Creds) :
    (save_to_google_sheet o data sn wn cj).2 = Except.ok ()
    ∧ (save_to_google_sheet o data sn wn cj).1.filter isSheetCall <+:
        [Ev.sheetClient, Ev.sheetOpen sn, Ev.sheetWorksheet wn, Ev.sheetAppend sn wn data]
    ∧ (o.service_account_from_dict cj = .ok () → o.open_sheet sn = .ok () →
       o.worksheet wn = .ok () → o.append_row sn wn data = .ok () →
       (save_to_google_sheet o data sn wn cj).1 =
         [Ev.sheetClient, Ev.sheetOpen sn, Ev.sheetWorksheet wn, Ev.sheetAppend sn wn data,
          Ev.success ("Data saved to Google Sheet " ++ sn ++ " (worksheet " ++ wn ++ ")")])
    ∧ (∀ e, (save_body o data sn wn cj).2 = .error e →
       (save_to_google_sheet o data sn wn cj).1 =
         (save_body o data sn wn cj).1 ++ [.errorMsg ("Error saving to Google Sheet: " ++ e)]) := by
  refine ⟨save_to_google_sheet_ok o data sn wn cj, ?_, ?_, ?_⟩
  · have hfil : (save_to_google_sheet o data sn wn cj).1.filter isSheetCall =
        (save_body o data sn wn cj).1 := by
      unfold save_to_google_sheet
      split
      · next evs u heq =>
          have hfst : (save_body o data sn wn cj).1 = evs := by rw [heq]
          dsimp only
          rw [List.filter_append, hfst]
          rw [List.filter_eq_self.mpr (fun e he => (hfst ▸ save_body_events_sheet o data sn wn cj) e he)]
          simp [isSheetCall]
      · next evs e heq =>
          have hfst : (save_body o data sn wn cj).1 = evs := by rw [heq]
          dsimp only
          rw [List.filter_append, hfst]
          rw [List.filter_eq_self.mpr (fun e he => (hfst ▸ save_body_events_sheet o data sn wn cj) e he)]
          simp [isSheetCall]
    rw [hfil]
    exact save_body_calls o data sn wn cj
  · intro h1 h2 h3 h4
    rw [save_to_google_sheet_all_ok o data sn wn cj h1 h2 h3 h4]
  · intro e he
    unfold save_to_google_sheet
    split
    · next evs u heq =>
        rw [heq] at he
        cases he
    · next evs e' heq =>
        rw [heq] at he
        simp only at he
        injection he with he'
        subst he'
        have hfst : (save_body o data sn wn cj).1 = evs := by rw [heq]
        rw [hfst]

/-- Witness for C3: on the all-success oracle, the four calls happen in
order and the success message follows. -/
theorem C3_save_to_google_sheet_spec_witness :
    (save_to_google_sheet oracleAllOk ["doc.txt", "Analysis Proposal", "model response"]
      "Sheet1" "Analysis" [("type", "service_account")]).1 =
      [Ev.sheetClient, Ev.sheetOpen "Sheet1", Ev.sheetWorksheet "Analysis",
       Ev.sheetAppend "Sheet1" "Analysis" ["doc.txt", "Analysis Proposal", "model response"],
       Ev.success "Data saved to Google Sheet Sheet1 (worksheet Analysis)"] :=
  ((C3_save_to_google_sheet_spec oracleAllOk _ "Sheet1" "Analysis" _).2.2.1
    rfl rfl rfl rfl).trans rfl

/-! ## C10: empty API key -/

/-- C10: when the API-key field is empty, the run displays the title and
the warning and returns: the session state is unchanged, no external or
spreadsheet call is made, and no exception escapes. -/
theorem C10_empty_key_early_return (o : Oracles) (inp : Inputs) (st : SessionState)
    (h : inp.gemini_api_key = "") :
    mainRun o inp st =
      ⟨st, [Ev.title "Chatbot for Document Q&A and Statistical Analysis",
            Ev.warning "Please enter your Gemini API Key to proceed."], none⟩ := by
  unfold mainRun
  rw [if_neg (by simp [h])]
  rfl

/-- Witness for C10 at concrete inputs. -/
theorem C10_empty_key_early_return_witness :
    mainRun oracleAllOk { inpFull with gemini_api_key := "" } freshState =
      ⟨freshState, [Ev.title "Chatbot for Document Q&A and Statistical Analysis",
        Ev.warning "Please enter your Gemini API Key to proceed."], none⟩ :=
  C10_empty_key_early_return oracleAllOk _ freshState rfl

/-! ## C2: chat-history evolution -/

theorem chatBlock_ok_eq (o : Oracles) (inp : Inputs) (st : SessionState) (resp : String)
    (hq : inp.user_question ≠ "") (hm : o.get_model st.gemini_api_key = .ok ())
    (hs : o.start_chat st.chat_history = .ok ())
    (hsend : o.send_message st.chat_history
      (chatMessage st.document_content inp.user_question) = .ok resp) :
    chatBlock o inp st =
      ⟨{ st with chat_history := st.chat_history ++
          [chatTurnUser inp.user_question, chatTurnModel resp] },
       [Ev.subheader "Ask a question about the document or statistical analysis:"] ++
         [Ev.configureModel st.gemini_api_key, Ev.startChatCall st.chat_history] ++
         [Ev.sendMessage st.chat_history (chatMessage st.document_content inp.user_question)] ++
         chatSaveTail o inp { st with chat_history := st.chat_history ++
           [chatTurnUser inp.user_question, chatTurnModel resp] } resp ++
         (st.chat_history ++ [chatTurnUser inp.user_question, chatTurnModel resp]).map
           (fun m => Ev.chatMarkdown m.role m.text),
       none⟩ := by
  unfold chatBlock
  rw [if_pos hq, hm]
  dsimp only
  rw [hs]
  dsimp only
  rw [hsend]

theorem chatBlock_send_error_eq (o : Oracles) (inp : Inputs) (st : SessionState) (e : String)
    (hq : inp.user_question ≠ "") (hm : o.get_model st.gemini_api_key = .ok ())
    (hs : o.start_chat st.chat_history = .ok ())
    (hsend : o.send_message st.chat_history
      (chatMessage st.document_content inp.user_question) = .error e) :
    chatBlock o inp st =
      ⟨st,
       [Ev.subheader "Ask a question about the document or statistical analysis:"] ++
         [Ev.configureModel st.gemini_api_key, Ev.startChatCall st.chat_history] ++
         [Ev.sendMessage st.chat_history (chatMessage st.document_content inp.user_question),
          Ev.errorMsg ("Error communicating with Gemini: " ++ e)] ++
         st.chat_history.map (fun m => Ev.chatMarkdown m.role m.text),
       none⟩ := by
  unfold chatBlock
  rw [if_pos hq, hm]
  dsimp only
  rw [hs]
  dsimp only
  rw [hsend]

theorem mainRun_chat_history (o : Oracles) (inp : Inputs) (st : SessionState) :
    (mainRun o inp st).state.chat_history = st.chat_history ∨
    ∃ q r, (mainRun o inp st).state.chat_history =
      st.chat_history ++ [chatTurnUser q, chatTurnModel r] := by
  unfold mainRun
  split
  · split
    · split
      · exact Or.inl rfl
      · rcases documentSection_chat_history o inp _ _ with h | ⟨q, r, h⟩
        · exact Or.inl (h.trans rfl)
        · exact Or.inr ⟨q, r, h.trans rfl⟩
    · rcases documentSection_chat_history o inp _ _ with h | ⟨q, r, h⟩
      · exact Or.inl (h.trans rfl)
      · exact Or.inr ⟨q, r, h.trans rfl⟩
  · exact Or.inl rfl

/-- C2: across any run, the chat history only ever grows at the end, by
nothing or by exactly a user turn followed by a model turn; and in the
chat handler the history is extended exactly when `send_message`
succeeds: on success by the user turn with the question and the model
turn with the response, and on an exception it is left unchanged. -/
theorem C2_chat_history_spec :
    (∀ (o : Oracles) (inp : Inputs) (st : SessionState),
      (mainRun o inp st).state.chat_history = st.chat_history ∨
      ∃ q r, (mainRun o inp st).state.chat_history =
        st.chat_history ++ [chatTurnUser q, chatTurnModel r])
    ∧ (∀ (o : Oracles) (inp : Inputs) (st : SessionState),
       inp.user_question ≠ "" →
       o.get_model st.gemini_api_key = .ok () →
       o.start_chat st.chat_history = .ok () →
       (∀ resp, o.send_message st.chat_history
           (chatMessage st.document_content inp.user_question) = .ok resp →
         (chatBlock o inp st).state.chat_history =
           st.chat_history ++ [chatTurnUser inp.user_question, chatTurnModel resp])
       ∧ (∀ e, o.send_message st.chat_history
           (chatMessage st.document_content inp.user_question) = .error e →
         (chatBlock o inp st).state.chat_history = st.chat_history)) := by
  refine ⟨mainRun_chat_history, fun o inp st hq hm hs => ⟨?_, ?_⟩⟩
  · intro resp hsend
    rw [chatBlock_ok_eq o inp st resp hq hm hs hsend]
  · intro e hsend
    rw [chatBlock_send_error_eq o inp st e hq hm hs hsend]

/-- Witness for C2: a concrete successful exchange appends the two turns,
and a failing send leaves the history unchanged. -/
theorem C2_chat_history_spec_witness :
    (chatBlock oracleAllOk inpFull
        { freshState with document_content := "doc" }).state.chat_history =
      [chatTurnUser "What is it about", chatTurnModel "chat response"] :=
  ((C2_chat_history_spec.2 oracleAllOk inpFull
      { freshState with document_content := "doc" } (by decide) rfl rfl).1
    "chat response" rfl).trans rfl

/-! ## C8: the stored document content is write-once -/

theorem blocks_count_summarize_zero (o : Oracles) (inp : Inputs) :
    ∀ s, countP isSummarizeCall (analysisBlock o inp s).events = 0 ∧
      countP isSummarizeCall (quizBlock o inp s).events = 0 ∧
      countP isSummarizeCall (chatBlock o inp s).events = 0 := fun s =>
  ⟨analysisBlock_count_zero o inp s isSummarizeCall rfl (fun _ => rfl) (fun _ => rfl)
      (fun _ _ _ => rfl) (fun _ => rfl) (fun _ => rfl) (fun _ => rfl) (fun _ => rfl)
      (fun _ => rfl) isSummarizeCall_analysis,
   quizBlock_count_zero o inp s isSummarizeCall (fun _ => rfl) (fun _ => rfl)
      (fun _ => rfl) (fun _ => rfl) isSummarizeCall_quiz,
   chatBlock_count_zero o inp s isSummarizeCall rfl (fun _ => rfl) (fun _ => rfl)
      (fun _ _ _ => rfl) (fun _ => rfl) (fun _ => rfl) (fun _ => rfl) (fun _ => rfl)
      (fun _ => rfl) (fun _ _ => rfl) (fun _ _ => rfl)⟩

theorem documentSection_doc_stable (o : Oracles) (inp : Inputs) (st0 s : SessionState)
    (evs : List Ev) (hs : s.document_content = st0.document_content)
    (h : st0.document_content ≠ "") :
    (documentSection o inp s evs).state.document_content = st0.document_content := by
  rw [documentSection_doc_content, uploadBlock_of_doc_nonempty o inp s (by rw [hs]; exact h)]
  exact hs

theorem documentSection_count_summ_stable (o : Oracles) (inp : Inputs)
    (st0 s : SessionState) (evs : List Ev)
    (hs : s.document_content = st0.document_content) (h : st0.document_content ≠ "")
    (hevs : countP isSummarizeCall evs = 0) :
    countP isSummarizeCall (documentSection o inp s evs).events = 0 := by
  rw [documentSection_count_eq o inp s evs isSummarizeCall hevs
    (blocks_count_summarize_zero o inp)]
  rw [uploadBlock_of_doc_nonempty o inp s (by rw [hs]; exact h)]
  rfl

theorem mainRun_doc_content_stable (o : Oracles) (inp : Inputs) (st : SessionState)
    (h : st.document_content ≠ "") :
    (mainRun o inp st).state.document_content = st.document_content := by
  unfold mainRun
  split
  · split
    · split
      · rfl
      · exact documentSection_doc_stable o inp st _ _ rfl h
    · exact documentSection_doc_stable o inp st _ _ rfl h
  · rfl

theorem mainRun_count_summarize_of_doc (o : Oracles) (inp : Inputs) (st : SessionState)
    (h : st.document_content ≠ "") :
    countP isSummarizeCall (mainRun o inp st).events = 0 := by
  unfold mainRun
  split
  · split
    · split
      · rfl
      · exact documentSection_count_summ_stable o inp st _ _ rfl h rfl
    · exact documentSection_count_summ_stable o inp st _ _ rfl h rfl
  · rfl

/-- C8: once the stored document content is non-empty, any further run
leaves it unchanged (the assignment is guarded by emptiness) and issues
no summarization call. -/
theorem C8_doc_content_write_once (o : Oracles) (inp : Inputs) (st : SessionState)
    (h : st.document_content ≠ "") :
    (mainRun o inp st).state.document_content = st.document_content ∧
    countP isSummarizeCall (mainRun o inp st).events = 0 :=
  ⟨mainRun_doc_content_stable o inp st h, mainRun_count_summarize_of_doc o inp st h⟩

/-- Witness for C8: with stored content "doc" and a new file uploaded,
the content stays "doc" and no summarization happens. -/
theorem C8_doc_content_write_once_witness :
    (mainRun oracleAllOk inpFull { freshState with document_content := "doc" }).state.document_content = "doc"
    ∧ countP isSummarizeCall
        (mainRun oracleAllOk inpFull { freshState with document_content := "doc" }).events = 0 :=
  C8_doc_content_write_once oracleAllOk inpFull _ (by decide)

/-! ## C4: exception handling coverage -/

theorem get_file_content_ok (o : Oracles) (f : UploadedFile)
    (hdec : ∀ b, ∃ s, o.decode_utf8 b = .ok s)
    (hpdf : ∀ b, ∃ l, o.pdf_page_texts b = .ok l) :
    ∃ c, get_file_content o f = .ok c := by
  unfold get_file_content
  dsimp only
  by_cases h1 : (strContains f.type "text" || strContains f.type "markdown") = true
  · rw [if_pos h1]
    exact hdec _
  · rw [if_neg h1]
    by_cases h2 : strContains f.type "pdf" = true
    · rw [if_pos h2]
      obtain ⟨l, hl⟩ := hpdf f.bytes
      rw [hl]
      exact ⟨_, rfl⟩
    · rw [if_neg h2]
      exact ⟨_, rfl⟩

theorem uploadBlock_uncaught_of_extract_ok (o : Oracles) (inp : Inputs) (st : SessionState)
    (hdec : ∀ b, ∃ s, o.decode_utf8 b = .ok s)
    (hpdf : ∀ b, ∃ l, o.pdf_page_texts b = .ok l) :
    (uploadBlock o inp st).uncaught = none := by
  unfold uploadBlock
  split
  · rfl
  · rename_i f heqf
    split
    · obtain ⟨c, hc⟩ := get_file_content_ok o f hdec hpdf
      rw [hc]
      dsimp only
      repeat first | rfl | split
    · rfl

theorem documentSection_uncaught_none (o : Oracles) (inp : Inputs) (st : SessionState)
    (evs : List Ev) (hu : (uploadBlock o inp st).uncaught = none)
    (hc : (chatBlock o inp (uploadBlock o inp st).state).uncaught = none) :
    (documentSection o inp st evs).uncaught = none := by
  by_cases hd : (uploadBlock o inp st).state.document_content = ""
  · rw [documentSection_of_nodoc o inp st evs hu hd]
  · rw [documentSection_of_doc o inp st evs hu hd]
    exact hc

/-- C4, counterexample to the claim as stated: `json.load` of the
credentials file (line 60) is outside every `try` block, so an invalid
credentials JSON escapes as an uncaught exception even though every other
widget input is well-formed. -/
theorem C4_counterexample :
    (mainRun oracleBadJson inpFull freshState).uncaught = some "Expecting value" := rfl

/-- C4 as amended: broad handlers cover summarization, the two buttons,
the chat send and all spreadsheet steps, but credentials-JSON parsing
(line 60), file-content extraction (line 74), and the model construction
and chat start of the chat path (lines 115-116) are outside every
handler.  When those four operations succeed, no exception escapes the
run, whatever the other oracles do. -/
theorem C4_amended_uncaught_only_unprotected (o : Oracles) (inp : Inputs) (st : SessionState)
    (hjson : ∀ b, ∃ c, o.json_load b = .ok c)
    (hdec : ∀ b, ∃ s, o.decode_utf8 b = .ok s)
    (hpdf : ∀ b, ∃ l, o.pdf_page_texts b = .ok l)
    (hmodel : ∀ k, o.get_model k = .ok ())
    (hstart : ∀ h, o.start_chat h = .ok ()) :
    (mainRun o inp st).uncaught = none := by
  unfold mainRun
  split
  · split
    · rename_i b heqb
      obtain ⟨c, hc⟩ := hjson b
      rw [hc]
      dsimp only
      exact documentSection_uncaught_none o inp _ _
        (uploadBlock_uncaught_of_extract_ok o inp _ hdec hpdf)
        (chatBlock_uncaught_of_ok o inp _ (hmodel _) (hstart _))
    · exact documentSection_uncaught_none o inp _ _
        (uploadBlock_uncaught_of_extract_ok o inp _ hdec hpdf)
        (chatBlock_uncaught_of_ok o inp _ (hmodel _) (hstart _))
  · rfl

/-- Witness for the amended C4: on the all-success oracle the full run
ends with no uncaught exception. -/
theorem C4_amended_witness :
    (mainRun oracleAllOk inpFull freshState).uncaught = none :=
  C4_amended_uncaught_only_unprotected oracleAllOk inpFull freshState
    (fun _ => ⟨_, rfl⟩) (fun _ => ⟨_, rfl⟩) (fun _ => ⟨_, rfl⟩) (fun _ => rfl) (fun _ => rfl)

/-! ## C6: upload, store and summarize once -/

theorem uploadBlock_summarize_eq (o : Oracles) (inp : Inputs) (st : SessionState)
    (f : UploadedFile) (c : String)
    (hf : inp.uploaded_file = some f) (hd : st.document_content = "")
    (hc : get_file_content o f = .ok c) (hne : c ≠ "Unsupported file type.")
    (hm : o.get_model st.gemini_api_key = .ok ()) :
    uploadBlock o inp st =
      ⟨{ st with document_content := c },
       [Ev.configureModel st.gemini_api_key, Ev.generateContent (summarizePrompt c)] ++
         (match o.generate_content (summarizePrompt c) with
          | .error e => [Ev.errorMsg ("Error summarizing document: " ++ e)]
          | .ok resp => [Ev.subheader "Document Summary:", Ev.write resp]),
       none⟩ := by
  unfold uploadBlock
  rw [hf]
  dsimp only
  rw [if_pos hd, hc]
  dsimp only
  rw [if_pos hne, hm]
  dsimp only
  cases hg : o.generate_content (summarizePrompt c) <;> rfl

theorem mainRun_none_creds (o : Oracles) (inp : Inputs) (st : SessionState)
    (hkey : inp.gemini_api_key ≠ "") (hnone : inp.credentials_file = none) :
    mainRun o inp st = documentSection o inp
      { st with gemini_api_key := inp.gemini_api_key }
      [Ev.title "Chatbot for Document Q&A and Statistical Analysis",
       Ev.success "Gemini API Key set!", Ev.subheader "Google Sheet Integration",
       Ev.info "Upload a service account key JSON for Google Sheet integration. Instructions: https://docs.gspread.org/en/latest/oauth2setup.html#service-account"] := by
  unfold mainRun
  rw [if_pos hkey, hnone]
  rfl

theorem mainRun_some_creds (o : Oracles) (inp : Inputs) (st : SessionState)
    (b : List Nat) (cj : Creds)
    (hkey : inp.gemini_api_key ≠ "") (hb : inp.credentials_file = some b)
    (hc : o.json_load b = .ok cj) :
    mainRun o inp st = documentSection o inp
      { st with gemini_api_key := inp.gemini_api_key, google_sheet_credentials := some cj }
      [Ev.title "Chatbot for Document Q&A and Statistical Analysis",
       Ev.success "Gemini API Key set!", Ev.subheader "Google Sheet Integration",
       Ev.jsonLoadCall, Ev.success "Google Sheet credentials loaded!"] := by
  unfold mainRun
  rw [if_pos hkey, hb]
  dsimp only
  rw [hc]
  rfl

theorem documentSection_upload_infix (o : Oracles) (inp : Inputs) (st : SessionState)
    (evs : List Ev) :
    (uploadBlock o inp st).events <:+: (documentSection o inp st evs).events := by
  rcases hu : (uploadBlock o inp st).uncaught with _ | e
  · by_cases hd : (uploadBlock o inp st).state.document_content = ""
    · rw [documentSection_of_nodoc o inp st evs hu hd]
      exact ⟨evs, [], by simp⟩
    · rw [documentSection_of_doc o inp st evs hu hd]
      exact ⟨evs, ((analysisBlock o inp (uploadBlock o inp st).state).events ++
        (quizBlock o inp (uploadBlock o inp st).state).events) ++
        (chatBlock o inp (uploadBlock o inp st).state).events, by simp⟩
  · rw [documentSection_of_uncaught o inp st evs e hu]
    exact ⟨evs, [], by simp⟩

theorem documentSection_summarize_core (o : Oracles) (inp : Inputs) (s : SessionState)
    (evs : List Ev) (f : UploadedFile) (c : String)
    (hf : inp.uploaded_file = some f) (hd : s.document_content = "")
    (hc : get_file_content o f = .ok c) (hne : c ≠ "Unsupported file type.")
    (hm : ∀ k, o.get_model k = .ok ())
    (hevs : countP isSummarizeCall evs = 0) :
    (documentSection o inp s evs).state.document_content = c
    ∧ countP isSummarizeCall (documentSection o inp s evs).events = 1
    ∧ Ev.generateContent (summarizePrompt c) ∈ (documentSection o inp s evs).events
    ∧ (∀ resp, o.generate_content (summarizePrompt c) = .ok resp →
        [Ev.subheader "Document Summary:", Ev.write resp] <:+:
          (documentSection o inp s evs).events) := by
  have hup := uploadBlock_summarize_eq o inp s f c hf hd hc hne (hm _)
  refine ⟨?_, ?_, ?_, ?_⟩
  · rw [documentSection_doc_content, hup]
  · rw [documentSection_count_eq o inp s evs isSummarizeCall hevs
      (blocks_count_summarize_zero o inp), hup]
    dsimp only
    cases hg : o.generate_content (summarizePrompt c) <;>
      simp [countP_cons, countP_nil, countP_append, isSummarizeCall, summarizePrompt_head]
  · have hinf := documentSection_upload_infix o inp s evs
    have hmem : Ev.generateContent (summarizePrompt c) ∈ (uploadBlock o inp s).events := by
      rw [hup]
      simp
    exact hinf.sublist.subset hmem
  · intro resp hg
    have hinf := documentSection_upload_infix o inp s evs
    have h2 : [Ev.subheader "Document Summary:", Ev.write resp] <:+:
        (uploadBlock o inp s).events := by
      rw [hup]
      dsimp only
      rw [hg]
      exact ⟨[Ev.configureModel s.gemini_api_key, Ev.generateContent (summarizePrompt c)],
        [], by simp⟩
    exact h2.trans hinf

/-- C6: when a file is uploaded while the stored content is empty, its
extracted content is stored, and if it is not the unsupported-file
sentinel, exactly one summarization request is sent, with the prompt
"Summarize the following document:" followed by the content; on success
the response is displayed as the document summary. -/
theorem C6_upload_summarizes (o : Oracles) (inp : Inputs) (st : SessionState)
    (f : UploadedFile) (c : String)
    (hkey : inp.gemini_api_key ≠ "")
    (hcred : inp.credentials_file = none ∨
      ∃ b cj, inp.credentials_file = some b ∧ o.json_load b = .ok cj)
    (hf : inp.uploaded_file = some f) (hdoc : st.document_content = "")
    (hc : get_file_content o f = .ok c) (hne : c ≠ "Unsupported file type.")
    (hm : ∀ k, o.get_model k = .ok ()) :
    (mainRun o inp st).state.document_content = c
    ∧ countP isSummarizeCall (mainRun o inp st).events = 1
    ∧ Ev.generateContent (summarizePrompt c) ∈ (mainRun o inp st).events
    ∧ (∀ resp, o.generate_content (summarizePrompt c) = .ok resp →
        [Ev.subheader "Document Summary:", Ev.write resp] <:+: (mainRun o inp st).events) := by
  rcases hcred with hnone | ⟨b, cj, hb, hcj⟩
  · rw [mainRun_none_creds o inp st hkey hnone]
    exact documentSection_summarize_core o inp _ _ f c hf hdoc hc hne hm rfl
  · rw [mainRun_some_creds o inp st b cj hkey hb hcj]
    exact documentSection_summarize_core o inp _ _ f c hf hdoc hc hne hm rfl

/-- Witness for C6: a concrete text upload stores the decoded text and
issues one summarization call whose response is displayed. -/
theorem C6_upload_summarizes_witness :
    (mainRun oracleAllOk inpFull freshState).state.document_content = "decoded text"
    ∧ countP isSummarizeCall (mainRun oracleAllOk inpFull freshState).events = 1
    ∧ Ev.generateContent (summarizePrompt "decoded text") ∈
        (mainRun oracleAllOk inpFull freshState).events
    ∧ [Ev.subheader "Document Summary:", Ev.write "model response"] <:+:
        (mainRun oracleAllOk inpFull freshState).events := by
  have h := C6_upload_summarizes oracleAllOk inpFull freshState fileTxt "decoded text"
    (by decide) (Or.inr ⟨[123, 125], [("type", "service_account")], rfl, rfl⟩)
    rfl rfl rfl (by decide) (fun _ => rfl)
  exact ⟨h.1, h.2.1, h.2.2.1, h.2.2.2 "model response" rfl⟩

/-! ## C9: the unsupported-file sentinel becomes the document content -/

theorem documentSection_unsupported_core (o : Oracles) (inp : Inputs) (s : SessionState)
    (evs : List Ev) (f : UploadedFile)
    (hf : inp.uploaded_file = some f) (hd : s.document_content = "")
    (ht : strContains f.type "text" = false) (hmd : strContains f.type "markdown" = false)
    (hp : strContains f.type "pdf" = false)
    (hevs : countP isSummarizeCall evs = 0) :
    (documentSection o inp s evs).state.document_content = "Unsupported file type."
    ∧ Ev.errorMsg "Unsupported file type." ∈ (documentSection o inp s evs).events
    ∧ countP isSummarizeCall (documentSection o inp s evs).events = 0 := by
  have hc : get_file_content o f = .ok "Unsupported file type." := by
    simp [get_file_content, ht, hmd, hp]
  have hup : uploadBlock o inp s = ⟨{ s with document_content := "Unsupported file type." },
      [Ev.errorMsg "Unsupported file type."], none⟩ := by
    unfold uploadBlock
    rw [hf]
    dsimp only
    rw [if_pos hd, hc]
    dsimp only
    rw [if_neg (by simp)]
  refine ⟨?_, ?_, ?_⟩
  · rw [documentSection_doc_content, hup]
  · have hinf := documentSection_upload_infix o inp s evs
    have hmem : Ev.errorMsg "Unsupported file type." ∈ (uploadBlock o inp s).events := by
      rw [hup]
      simp
    exact hinf.sublist.subset hmem
  · rw [documentSection_count_eq o inp s evs isSummarizeCall hevs
      (blocks_count_summarize_zero o inp), hup]
    rfl

/-- C9: an upload of an unsupported MIME type stores the sentinel
"Unsupported file type." itself as the document content (displaying it as
an error and sending no summarization request); the sentinel is
non-empty, so the interface is subsequently enabled and the chat sends
the sentinel as the document text; and the write-once guard keeps the
sentinel in place in any later run. -/
theorem C9_unsupported_sentinel :
    (∀ (o : Oracles) (inp : Inputs) (st : SessionState) (f : UploadedFile),
      inp.gemini_api_key ≠ "" →
      (inp.credentials_file = none ∨
        ∃ b cj, inp.credentials_file = some b ∧ o.json_load b = .ok cj) →
      inp.uploaded_file = some f → st.document_content = "" →
      strContains f.type "text" = false → strContains f.type "markdown" = false →
      strContains f.type "pdf" = false →
      (mainRun o inp st).state.document_content = "Unsupported file type."
      ∧ Ev.errorMsg "Unsupported file type." ∈ (mainRun o inp st).events
      ∧ countP isSummarizeCall (mainRun o inp st).events = 0)
    ∧ (∀ (o : Oracles) (inp : Inputs) (st : SessionState),
        st.document_content = "Unsupported file type." →
        inp.user_question ≠ "" →
        o.get_model st.gemini_api_key = .ok () → o.start_chat st.chat_history = .ok () →
        Ev.sendMessage st.chat_history
          (chatMessage "Unsupported file type." inp.user_question) ∈
          (chatBlock o inp st).events)
    ∧ (∀ (o : Oracles) (inp : Inputs) (st : SessionState),
        st.document_content = "Unsupported file type." →
        (mainRun o inp st).state.document_content = "Unsupported file type.") := by
  refine ⟨?_, ?_, ?_⟩
  · intro o inp st f hkey hcred hf hdoc ht hmd hp
    rcases hcred with hnone | ⟨b, cj, hb, hcj⟩
    · rw [mainRun_none_creds o inp st hkey hnone]
      exact documentSection_unsupported_core o inp _ _ f hf hdoc ht hmd hp rfl
    · rw [mainRun_some_creds o inp st b cj hkey hb hcj]
      exact documentSection_unsupported_core o inp _ _ f hf hdoc ht hmd hp rfl
  · intro o inp st hdoc hq hm hs
    cases hsend : o.send_message st.chat_history
        (chatMessage st.document_content inp.user_question) with
    | error e =>
      rw [chatBlock_send_error_eq o inp st e hq hm hs hsend, ← hdoc]
      simp
    | ok resp =>
      rw [chatBlock_ok_eq o inp st resp hq hm hs hsend, ← hdoc]
      simp
  · intro o inp st hdoc
    exact (mainRun_doc_content_stable o inp st (by rw [hdoc]; decide)).trans hdoc

/-- Witness for C9 at a concrete binary upload, then a chat and a second
upload from the sentinel state. -/
theorem C9_unsupported_sentinel_witness :
    (mainRun oracleAllOk { inpFull with uploaded_file := some fileBin }
        freshState).state.document_content = "Unsupported file type."
    ∧ Ev.sendMessage [] (chatMessage "Unsupported file type." "What is it about") ∈
        (chatBlock oracleAllOk inpFull
          { freshState with document_content := "Unsupported file type." }).events
    ∧ (mainRun oracleAllOk inpFull
        { freshState with document_content := "Unsupported file type." }).state.document_content =
        "Unsupported file type." :=
  ⟨(C9_unsupported_sentinel.1 oracleAllOk _ freshState fileBin (by decide)
      (Or.inr ⟨[123, 125], [("type", "service_account")], rfl, rfl⟩) rfl rfl
      (by decide) (by decide) (by decide)).1,
   C9_unsupported_sentinel.2.1 oracleAllOk inpFull _ rfl (by decide) rfl rfl,
   C9_unsupported_sentinel.2.2 oracleAllOk inpFull _ rfl⟩

/-! ## C7: call counts per run -/

theorem mainRun_count_summarize_le (o : Oracles) (inp : Inputs) (st : SessionState) :
    countP isSummarizeCall (mainRun o inp st).events ≤ 1 := by
  unfold mainRun
  split
  · split
    · split
      · simp [countP_cons, countP_nil, countP_append, isSummarizeCall]
      · exact documentSection_count_le o inp _ _ isSummarizeCall 1 0 rfl
          (uploadBlock_count_summarize o inp _)
          (fun s => by
            have h := blocks_count_summarize_zero o inp s
            omega)
    · exact documentSection_count_le o inp _ _ isSummarizeCall 1 0 rfl
        (uploadBlock_count_summarize o inp _)
        (fun s => by
          have h := blocks_count_summarize_zero o inp s
          omega)
  · simp [countP_cons, countP_nil, isSummarizeCall]

theorem blocks_count_analysis_le (o : Oracles) (inp : Inputs) (s : SessionState) :
    countP isAnalysisCall (analysisBlock o inp s).events +
      countP isAnalysisCall (quizBlock o inp s).events +
      countP isAnalysisCall (chatBlock o inp s).events ≤ 1 := by
  have h1 := analysisBlock_count_analysis o inp s
  have h2 := quizBlock_count_zero o inp s isAnalysisCall (fun _ => rfl) (fun _ => rfl)
    (fun _ => rfl) (fun _ => rfl) isAnalysisCall_quiz
  have h3 := chatBlock_count_zero o inp s isAnalysisCall rfl (fun _ => rfl) (fun _ => rfl)
    (fun _ _ _ => rfl) (fun _ => rfl) (fun _ => rfl) (fun _ => rfl) (fun _ => rfl)
    (fun _ => rfl) (fun _ _ => rfl) (fun _ _ => rfl)
  omega

theorem mainRun_count_analysis_le (o : Oracles) (inp : Inputs) (st : SessionState) :
    countP isAnalysisCall (mainRun o inp st).events ≤ 1 := by
  unfold mainRun
  split
  · split
    · split
      · simp [countP_cons, countP_nil, countP_append, isAnalysisCall]
      · exact documentSection_count_le o inp _ _ isAnalysisCall 0 1 rfl
          (Nat.le_of_eq (uploadBlock_count_zero o inp _ isAnalysisCall (fun _ => rfl)
            (fun _ => rfl) (fun _ => rfl) (fun _ => rfl) isAnalysisCall_summarize))
          (blocks_count_analysis_le o inp)
    · exact documentSection_count_le o inp _ _ isAnalysisCall 0 1 rfl
        (Nat.le_of_eq (uploadBlock_count_zero o inp _ isAnalysisCall (fun _ => rfl)
          (fun _ => rfl) (fun _ => rfl) (fun _ => rfl) isAnalysisCall_summarize))
        (blocks_count_analysis_le o inp)
  · simp [countP_cons, countP_nil, isAnalysisCall]

theorem blocks_count_quiz_le (o : Oracles) (inp : Inputs) (s : SessionState) :
    countP isQuizCall (analysisBlock o inp s).events +
      countP isQuizCall (quizBlock o inp s).events +
      countP isQuizCall (chatBlock o inp s).events ≤ 1 := by
  have h1 := analysisBlock_count_zero o inp s isQuizCall rfl (fun _ => rfl) (fun _ => rfl)
    (fun _ _ _ => rfl) (fun _ => rfl) (fun _ => rfl) (fun _ => rfl) (fun _ => rfl)
    (fun _ => rfl) isQuizCall_analysis
  have h2 := quizBlock_count_quiz o inp s
  have h3 := chatBlock_count_zero o inp s isQuizCall rfl (fun _ => rfl) (fun _ => rfl)
    (fun _ _ _ => rfl) (fun _ => rfl) (fun _ => rfl) (fun _ => rfl) (fun _ => rfl)
    (fun _ => rfl) (fun _ _ => rfl) (fun _ _ => rfl)
  omega

theorem mainRun_count_quiz_le (o : Oracles) (inp : Inputs) (st : SessionState) :
    countP isQuizCall (mainRun o inp st).events ≤ 1 := by
  unfold mainRun
  split
  · split
    · split
      · simp [countP_cons, countP_nil, countP_append, isQuizCall]
      · exact documentSection_count_le o inp _ _ isQuizCall 0 1 rfl
          (Nat.le_of_eq (uploadBlock_count_zero o inp _ isQuizCall (fun _ => rfl)
            (fun _ => rfl) (fun _ => rfl) (fun _ => rfl) isQuizCall_summarize))
          (blocks_count_quiz_le o inp)
    · exact documentSection_count_le o inp _ _ isQuizCall 0 1 rfl
        (Nat.le_of_eq (uploadBlock_count_zero o inp _ isQuizCall (fun _ => rfl)
          (fun _ => rfl) (fun _ => rfl) (fun _ => rfl) isQuizCall_summarize))
        (blocks_count_quiz_le o inp)
  · simp [countP_cons, countP_nil, isQuizCall]

theorem blocks_count_send_le (o : Oracles) (inp : Inputs) (s : SessionState) :
    countP isSendCall (analysisBlock o inp s).events +
      countP isSendCall (quizBlock o inp s).events +
      countP isSendCall (chatBlock o inp s).events ≤ 1 := by
  have h1 := analysisBlock_count_zero o inp s isSendCall rfl (fun _ => rfl) (fun _ => rfl)
    (fun _ _ _ => rfl) (fun _ => rfl) (fun _ => rfl) (fun _ => rfl) (fun _ => rfl)
    (fun _ => rfl) (fun _ => rfl)
  have h2 := quizBlock_count_zero o inp s isSendCall (fun _ => rfl) (fun _ => rfl)
    (fun _ => rfl) (fun _ => rfl) (fun _ => rfl)
  have h3 := chatBlock_count_send o inp s
  omega

theorem mainRun_count_send_le (o : Oracles) (inp : Inputs) (st : SessionState) :
    countP isSendCall (mainRun o inp st).events ≤ 1 := by
  unfold mainRun
  split
  · split
    · split
      · simp [countP_cons, countP_nil, countP_append, isSendCall]
      · exact documentSection_count_le o inp _ _ isSendCall 0 1 rfl
          (Nat.le_of_eq (uploadBlock_count_zero o inp _ isSendCall (fun _ => rfl)
            (fun _ => rfl) (fun _ => rfl) (fun _ => rfl) (fun _ => rfl)))
          (blocks_count_send_le o inp)
    · exact documentSection_count_le o inp _ _ isSendCall 0 1 rfl
        (Nat.le_of_eq (uploadBlock_count_zero o inp _ isSendCall (fun _ => rfl)
          (fun _ => rfl) (fun _ => rfl) (fun _ => rfl) (fun _ => rfl)))
        (blocks_count_send_le o inp)
  · simp [countP_cons, countP_nil, isSendCall]

theorem blocks_count_append_le (o : Oracles) (inp : Inputs) (s : SessionState) :
    countP isAppendCall (analysisBlock o inp s).events +
      countP isAppendCall (quizBlock o inp s).events +
      countP isAppendCall (chatBlock o inp s).events ≤ 2 := by
  have h1 := analysisBlock_count_append o inp s
  have h2 := quizBlock_count_zero o inp s isAppendCall (fun _ => rfl) (fun _ => rfl)
    (fun _ => rfl) (fun _ => rfl) (fun _ => rfl)
  have h3 := chatBlock_count_append o inp s
  omega

theorem mainRun_count_append_le (o : Oracles) (inp : Inputs) (st : SessionState) :
    countP isAppendCall (mainRun o inp st).events ≤ 2 := by
  unfold mainRun
  split
  · split
    · split
      · simp [countP_cons, countP_nil, countP_append, isAppendCall]
      · exact documentSection_count_le o inp _ _ isAppendCall 0 2 rfl
          (Nat.le_of_eq (uploadBlock_count_zero o inp _ isAppendCall (fun _ => rfl)
            (fun _ => rfl) (fun _ => rfl) (fun _ => rfl) (fun _ => rfl)))
          (blocks_count_append_le o inp)
    · exact documentSection_count_le o inp _ _ isAppendCall 0 2 rfl
        (Nat.le_of_eq (uploadBlock_count_zero o inp _ isAppendCall (fun _ => rfl)
          (fun _ => rfl) (fun _ => rfl) (fun _ => rfl) (fun _ => rfl)))
        (blocks_count_append_le o inp)
  · simp [countP_cons, countP_nil, isAppendCall]

/-- C7, counterexample to the claim as stated: in a single run with the
analysis button clicked and a question pending, the sheet row append is
invoked twice (once at line 97, once at line 123), so "each external
operation is invoked at most once" fails for the spreadsheet
operations. -/
theorem C7_counterexample :
    countP isAppendCall (mainRun oracleAllOk inpFull freshState).events = 2 := rfl

/-- C7 as amended: no failed call is ever reissued; each of the
summarization, analysis-proposal, quiz, and chat-send requests is issued
at most once per run, and the spreadsheet append is issued at most once
per logging site, hence at most twice per run (the analysis save at line
97 and the chat save at line 123). -/
theorem C7_amended_no_retry (o : Oracles) (inp : Inputs) (st : SessionState) :
    countP isSummarizeCall (mainRun o inp st).events ≤ 1
    ∧ countP isAnalysisCall (mainRun o inp st).events ≤ 1
    ∧ countP isQuizCall (mainRun o inp st).events ≤ 1
    ∧ countP isSendCall (mainRun o inp st).events ≤ 1
    ∧ countP isAppendCall (mainRun o inp st).events ≤ 2 :=
  ⟨mainRun_count_summarize_le o inp st, mainRun_count_analysis_le o inp st,
   mainRun_count_quiz_le o inp st, mainRun_count_send_le o inp st,
   mainRun_count_append_le o inp st⟩

/-! ## C5: when a row is logged -/

theorem credsTruthy_some_iff (c : Creds) : credsTruthy (some c) = true ↔ c ≠ [] := by
  cases c <;> simp [credsTruthy]

theorem analysisSaveTail_append_iff (o : Oracles) (inp : Inputs) (st : SessionState)
    (resp : String)
    (hs1 : ∀ c, o.service_account_from_dict c = .ok ()) (hs2 : ∀ s, o.open_sheet s = .ok ())
    (hs3 : ∀ s, o.worksheet s = .ok ()) (hs4 : ∀ a b r, o.append_row a b r = .ok ()) :
    (∃ a b r, Ev.sheetAppend a b r ∈ analysisSaveTail o inp st resp) ↔
      (credsTruthy st.google_sheet_credentials = true ∧ inp.google_sheet_name ≠ "" ∧
       inp.analysis_worksheet_name ≠ "" ∧ ∃ f, inp.uploaded_file = some f) := by
  unfold analysisSaveTail
  split
  · rename_i cj heqc
    split
    · rename_i hcond
      split
      · rename_i hfile
        constructor
        · rintro ⟨a, b, r, hm⟩
          simp at hm
        · rintro ⟨_, _, _, f, hf⟩
          rw [hfile] at hf
          cases hf
      · rename_i f hfile
        dsimp only
        split
        · constructor
          · intro _
            refine ⟨?_, hcond.2.1, hcond.2.2, f, hfile⟩
            rw [heqc]
            exact (credsTruthy_some_iff cj).mpr hcond.1
          · intro _
            rw [save_to_google_sheet_all_ok o [f.name, "Analysis Proposal", resp]
              inp.google_sheet_name inp.analysis_worksheet_name cj (hs1 _) (hs2 _) (hs3 _)
              (hs4 _ _ _)]
            exact ⟨inp.google_sheet_name, inp.analysis_worksheet_name,
              [f.name, "Analysis Proposal", resp], by simp⟩
        · rename_i e hsave
          rw [save_to_google_sheet_ok] at hsave
          cases hsave
    · rename_i hcond
      constructor
      · rintro ⟨a, b, r, hm⟩
        simp at hm
      · rintro ⟨htruthy, hg, hw, _⟩
        rw [heqc] at htruthy
        exact absurd ⟨(credsTruthy_some_iff cj).mp htruthy, hg, hw⟩ hcond
  · rename_i heqc
    constructor
    · rintro ⟨a, b, r, hm⟩
      simp at hm
    · rintro ⟨htruthy, _⟩
      rw [heqc] at htruthy
      simp [credsTruthy] at htruthy

theorem chatSaveTail_append_iff (o : Oracles) (inp : Inputs) (st' : SessionState)
    (resp : String)
    (hs1 : ∀ c, o.service_account_from_dict c = .ok ()) (hs2 : ∀ s, o.open_sheet s = .ok ())
    (hs3 : ∀ s, o.worksheet s = .ok ()) (hs4 : ∀ a b r, o.append_row a b r = .ok ()) :
    (∃ a b r, Ev.sheetAppend a b r ∈ chatSaveTail o inp st' resp) ↔
      (credsTruthy st'.google_sheet_credentials = true ∧ inp.google_sheet_name ≠ "" ∧
       inp.questions_worksheet_name ≠ "" ∧ ∃ f, inp.uploaded_file = some f) := by
  unfold chatSaveTail
  split
  · rename_i cj heqc
    split
    · rename_i hcond
      split
      · rename_i hfile
        constructor
        · rintro ⟨a, b, r, hm⟩
          simp at hm
        · rintro ⟨_, _, _, f, hf⟩
          rw [hfile] at hf
          cases hf
      · rename_i f hfile
        dsimp only
        split
        · constructor
          · intro _
            refine ⟨?_, hcond.2.1, hcond.2.2, f, hfile⟩
            rw [heqc]
            exact (credsTruthy_some_iff cj).mpr hcond.1
          · intro _
            rw [save_to_google_sheet_all_ok o [f.name, inp.user_question, resp]
              inp.google_sheet_name inp.questions_worksheet_name cj (hs1 _) (hs2 _) (hs3 _)
              (hs4 _ _ _)]
            exact ⟨inp.google_sheet_name, inp.questions_worksheet_name,
              [f.name, inp.user_question, resp], by simp⟩
        · rename_i e hsave
          rw [save_to_google_sheet_ok] at hsave
          cases hsave
    · rename_i hcond
      constructor
      · rintro ⟨a, b, r, hm⟩
        simp at hm
      · rintro ⟨htruthy, hg, hw, _⟩
        rw [heqc] at htruthy
        exact absurd ⟨(credsTruthy_some_iff cj).mp htruthy, hg, hw⟩ hcond
  · rename_i heqc
    constructor
    · rintro ⟨a, b, r, hm⟩
      simp at hm
    · rintro ⟨htruthy, _⟩
      rw [heqc] at htruthy
      simp [credsTruthy] at htruthy

theorem no_append_in_markdown_map (hist : List ChatTurn) (a b : String) (r : List String) :
    Ev.sheetAppend a b r ∉ hist.map (fun m => Ev.chatMarkdown m.role m.text) := by
  intro hm
  obtain ⟨m, _, hm2⟩ := List.mem_map.mp hm
  cases hm2

theorem analysisBlock_append_iff (o : Oracles) (inp : Inputs) (st : SessionState)
    (hs1 : ∀ c, o.service_account_from_dict c = .ok ()) (hs2 : ∀ s, o.open_sheet s = .ok ())
    (hs3 : ∀ s, o.worksheet s = .ok ()) (hs4 : ∀ a b r, o.append_row a b r = .ok ()) :
    (∃ a b r, Ev.sheetAppend a b r ∈ (analysisBlock o inp st).events) ↔
      (inp.analysis_clicked = true
       ∧ o.get_model st.gemini_api_key = .ok ()
       ∧ (∃ resp, o.generate_content (analysisPrompt st.document_content) = .ok resp)
       ∧ credsTruthy st.google_sheet_credentials = true
       ∧ inp.google_sheet_name ≠ "" ∧ inp.analysis_worksheet_name ≠ ""
       ∧ ∃ f, inp.uploaded_file = some f) := by
  unfold analysisBlock
  split
  · rename_i hclick
    split
    · rename_i e heqm
      constructor
      · rintro ⟨a, b, r, hm⟩
        simp at hm
      · rintro ⟨_, hm, _⟩
        rw [heqm] at hm
        cases hm
    · rename_i u heqm
      cases u
      split
      · rename_i e heqg
        constructor
        · rintro ⟨a, b, r, hm⟩
          simp at hm
        · rintro ⟨_, _, ⟨resp, hresp⟩, _⟩
          rw [hresp] at heqg
          cases heqg
      · rename_i resp heqg
        have htail := analysisSaveTail_append_iff o inp st resp hs1 hs2 hs3 hs4
        constructor
        · rintro ⟨a, b, r, hm⟩
          dsimp only at hm
          rw [List.mem_append] at hm
          rcases hm with hm | hm
          · simp at hm
          · exact ⟨hclick, heqm, ⟨resp, heqg⟩, htail.mp ⟨a, b, r, hm⟩⟩
        · rintro ⟨_, _, _, hrest⟩
          obtain ⟨a, b, r, hm⟩ := htail.mpr hrest
          exact ⟨a, b, r, List.mem_append.mpr (Or.inr hm)⟩
  · rename_i hclick
    constructor
    · rintro ⟨a, b, r, hm⟩
      simp at hm
    · rintro ⟨hcl, _⟩
      exact absurd hcl hclick

theorem chatBlock_append_iff (o : Oracles) (inp : Inputs) (st : SessionState)
    (hs1 : ∀ c, o.service_account_from_dict c = .ok ()) (hs2 : ∀ s, o.open_sheet s = .ok ())
    (hs3 : ∀ s, o.worksheet s = .ok ()) (hs4 : ∀ a b r, o.append_row a b r = .ok ()) :
    (∃ a b r, Ev.sheetAppend a b r ∈ (chatBlock o inp st).events) ↔
      (inp.user_question ≠ ""
       ∧ o.get_model st.gemini_api_key = .ok ()
       ∧ o.start_chat st.chat_history = .ok ()
       ∧ (∃ resp, o.send_message st.chat_history
           (chatMessage st.document_content inp.user_question) = .ok resp)
       ∧ credsTruthy st.google_sheet_credentials = true
       ∧ inp.google_sheet_name ≠ "" ∧ inp.questions_worksheet_name ≠ ""
       ∧ ∃ f, inp.uploaded_file = some f) := by
  unfold chatBlock
  split
  · rename_i hq
    split
    · rename_i e heqm
      constructor
      · rintro ⟨a, b, r, hm⟩
        simp at hm
      · rintro ⟨_, hm, _⟩
        rw [heqm] at hm
        cases hm
    · rename_i u heqm
      cases u
      split
      · rename_i e heqs
        constructor
        · rintro ⟨a, b, r, hm⟩
          simp at hm
        · rintro ⟨_, _, hs', _⟩
          rw [heqs] at hs'
          cases hs'
      · rename_i u2 heqs
        cases u2
        dsimp only
        split
        · rename_i e heqsend
          constructor
          · rintro ⟨a, b, r, hm⟩
            simp at hm
          · rintro ⟨_, _, _, ⟨resp, hresp⟩, _⟩
            rw [hresp] at heqsend
            cases heqsend
        · rename_i resp heqsend
          have htail := chatSaveTail_append_iff o inp
            { st with chat_history := st.chat_history ++
              [chatTurnUser inp.user_question, chatTurnModel resp] } resp hs1 hs2 hs3 hs4
          constructor
          · rintro ⟨a, b, r, hm⟩
            dsimp only at hm
            simp only [List.mem_append] at hm
            rcases hm with (((hm | hm) | hm) | hm) | hm
            · simp at hm
            · simp at hm
            · simp at hm
            · exact ⟨hq, heqm, heqs, ⟨resp, heqsend⟩, htail.mp ⟨a, b, r, hm⟩⟩
            · exact absurd hm (no_append_in_markdown_map _ a b r)
          · rintro ⟨_, _, _, _, hrest⟩
            obtain ⟨a, b, r, hm⟩ := htail.mpr hrest
            exact ⟨a, b, r, List.mem_append.mpr (Or.inl (List.mem_append.mpr (Or.inr hm)))⟩
  · rename_i hq
    constructor
    · rintro ⟨a, b, r, hm⟩
      simp at hm
    · rintro ⟨hq', _⟩
      exact absurd hq' hq

/-- C5, counterexample to the claim as stated: the credentials file is
loaded and parses to the empty JSON object (a falsy dict), every name is
non-empty, and the analysis proposal succeeds (its subheader is
displayed), yet no row is appended — Python truthiness of the credentials
dict, not mere presence, gates the save. -/
theorem C5_counterexample :
    Ev.subheader "Statistical Analysis Proposals:" ∈
      (mainRun oracleEmptyCreds inpFull freshState).events
    ∧ countP isAppendCall (mainRun oracleEmptyCreds inpFull freshState).events = 0 :=
  ⟨by decide, rfl⟩

/-- C5 as amended: with a spreadsheet backend that accepts all four
steps, a row-append happens in the analysis path exactly when the button
was clicked, the proposal generation succeeded, the stored credentials
value is truthy (a non-empty dict), the sheet name and the analysis
worksheet name are non-empty, and a file is currently uploaded; and in
the chat path exactly when a question is pending, the exchange succeeded,
the credentials are truthy, the sheet and questions worksheet names are
non-empty, and a file is currently uploaded. -/
theorem C5_amended_logging_iff (o : Oracles) (inp : Inputs) (st : SessionState)
    (hs1 : ∀ c, o.service_account_from_dict c = .ok ()) (hs2 : ∀ s, o.open_sheet s = .ok ())
    (hs3 : ∀ s, o.worksheet s = .ok ()) (hs4 : ∀ a b r, o.append_row a b r = .ok ()) :
    ((∃ a b r, Ev.sheetAppend a b r ∈ (analysisBlock o inp st).events) ↔
      (inp.analysis_clicked = true
       ∧ o.get_model st.gemini_api_key = .ok ()
       ∧ (∃ resp, o.generate_content (analysisPrompt st.document_content) = .ok resp)
       ∧ credsTruthy st.google_sheet_credentials = true
       ∧ inp.google_sheet_name ≠ "" ∧ inp.analysis_worksheet_name ≠ ""
       ∧ ∃ f, inp.uploaded_file = some f))
    ∧ ((∃ a b r, Ev.sheetAppend a b r ∈ (chatBlock o inp st).events) ↔
      (inp.user_question ≠ ""
       ∧ o.get_model st.gemini_api_key = .ok ()
       ∧ o.start_chat st.chat_history = .ok ()
       ∧ (∃ resp, o.send_message st.chat_history
           (chatMessage st.document_content inp.user_question) = .ok resp)
       ∧ credsTruthy st.google_sheet_credentials = true
       ∧ inp.google_sheet_name ≠ "" ∧ inp.questions_worksheet_name ≠ ""
       ∧ ∃ f, inp.uploaded_file = some f)) :=
  ⟨analysisBlock_append_iff o inp st hs1 hs2 hs3 hs4,
   chatBlock_append_iff o inp st hs1 hs2 hs3 hs4⟩

/-- Witness for the amended C5: with truthy credentials, non-empty names
and an uploaded file, the analysis path does append a row. -/
theorem C5_amended_logging_iff_witness :
    ∃ a b r, Ev.sheetAppend a b r ∈
      (analysisBlock oracleAllOk inpFull
        { gemini_api_key := "key", chat_history := [],
          document_content := "decoded text",
          google_sheet_credentials := some [("type", "service_account")] }).events :=
  (C5_amended_logging_iff oracleAllOk inpFull _ (fun _ => rfl) (fun _ => rfl) (fun _ => rfl)
    (fun _ _ _ => rfl)).1.mpr
    ⟨rfl, rfl, ⟨"model response", rfl⟩, rfl, by decide, by decide, fileTxt, rfl⟩
